import Mathlib

/-!
Shallow embedding of the cube-solver core (state model, move engine,
heuristic provider, A* search engine, scramble generator) of the
AeroHack repository, together with proofs of the specification claims.

The source represents a cube state as `faces : number[][]`: six faces
(0 = Up, 1 = Left, 2 = Front, 3 = Right, 4 = Back, 5 = Down), each an
array of nine facelet values. Here a face is a structure with nine
`Nat` fields `s0 .. s8` (facelet index 0..8, row-major) and a state is
a structure with six face fields `f0 .. f5` (face index 0..5), so that
`c.f1.s6` is the source's `cube.faces[1][6]`.
-/

/-- One face of the cube: the 9 facelet values of `faces[i][0..8]`. -/
structure Face where
  s0 : Nat
  s1 : Nat
  s2 : Nat
  s3 : Nat
  s4 : Nat
  s5 : Nat
  s6 : Nat
  s7 : Nat
  s8 : Nat
deriving DecidableEq

/-- The state of the cube: the six 9-facelet faces of `CubeState.faces`. -/
structure CubeState where
  f0 : Face
  f1 : Face
  f2 : Face
  f3 : Face
  f4 : Face
  f5 : Face
deriving DecidableEq

/-- The face's facelets as the list `[face[0], .., face[8]]`. -/
def Face.toList (f : Face) : List Nat :=
  [f.s0, f.s1, f.s2, f.s3, f.s4, f.s5, f.s6, f.s7, f.s8]

/-- The state's faces as the list `cube.faces`. -/
def facesList (c : CubeState) : List (List Nat) :=
  [c.f0.toList, c.f1.toList, c.f2.toList, c.f3.toList, c.f4.toList, c.f5.toList]

/-- All 54 facelets in face-major, sticker-minor order (the order of the
source's `for face / for sticker` loops). -/
def allFacelets (c : CubeState) : List Nat :=
  (facesList c).flatten

/-- Indexing a face by a facelet index, `face[i]` (0 for out of range;
all indices used by the engine are in range). -/
def Face.nth (f : Face) : Nat → Nat
  | 0 => f.s0
  | 1 => f.s1
  | 2 => f.s2
  | 3 => f.s3
  | 4 => f.s4
  | 5 => f.s5
  | 6 => f.s6
  | 7 => f.s7
  | 8 => f.s8
  | _ => 0

/-- A face filled with one value: `new Array(9).fill(i)`. -/
def Face.fill (v : Nat) : Face :=
  ⟨v, v, v, v, v, v, v, v, v⟩

/-- Source `createSolvedCube` (lines 26-32): face `i` is uniformly
filled with the value `i`. -/
def createSolvedCube : CubeState :=
  ⟨Face.fill 0, Face.fill 1, Face.fill 2, Face.fill 3, Face.fill 4, Face.fill 5⟩

/-- Source `isGoal` (lines 34-43): positional comparison of all 6 x 9
facelets, false at the first mismatch, true when every cell agrees. -/
def isGoal (current goal : CubeState) : Bool :=
  facesList current == facesList goal

/-- Source `getDisplacedPiecesHeuristic` (lines 45-57): the number of
positions at which the two states differ, divided by 8 rounding up
(`Math.ceil(displacedCount / 8)` on a natural number is `(n + 7) / 8`). -/
def getDisplacedPiecesHeuristic (current goal : CubeState) : Nat :=
  (((allFacelets current).zip (allFacelets goal)).countP
    (fun p => decide (p.1 ≠ p.2)) + 7) / 8

/-- Source `hashCubeState` (lines 396-398):
`cube.faces.map(face => face.join("")).join("|")`; each facelet value is
rendered in decimal (JS number-to-string coercion). -/
def hashCubeState (cube : CubeState) : String :=
  String.intercalate "|" ((facesList cube).map
    (fun face => String.join (face.map Nat.repr)))

/-- Source `applyPermutation` (lines 139-145): `face[i] = temp[perm[i]]`
for each `i`, where `temp` is a copy of the face before the loop; all
permutation tables used have length 9. -/
def applyPermutation (face : Face) (perm : List Nat) : Face :=
  ⟨face.nth (perm.getD 0 0), face.nth (perm.getD 1 0), face.nth (perm.getD 2 0),
   face.nth (perm.getD 3 0), face.nth (perm.getD 4 0), face.nth (perm.getD 5 0),
   face.nth (perm.getD 6 0), face.nth (perm.getD 7 0), face.nth (perm.getD 8 0)⟩

/-- Source line 152: clockwise rotation table of the turned face. -/
def facePermutation : List Nat := [6, 3, 0, 7, 4, 1, 8, 5, 2]

/-- Source line 153: counter-clockwise rotation table. -/
def facePermutationPrime : List Nat := [2, 5, 8, 1, 4, 7, 0, 3, 6]

/-- Source line 154: 180-degree rotation table. -/
def facePermutation2 : List Nat := [8, 7, 6, 5, 4, 3, 2, 1, 0]

/-- Source `applyMove` (lines 147-380). The source first deep-copies the
input state into `newCube` and then mutates only `newCube`; each `let c`
step below performs one block of the source's sequential assignments
(reads in later steps see earlier writes, exactly as in the source), and
an unrecognized move name falls through the switch and returns the
untouched copy. -/
def applyMove (cube : CubeState) (move : String) : CubeState :=
  match move with
  | "U" =>
    let c := { cube with f0 := applyPermutation cube.f0 facePermutation }
    let temp := (c.f1.s0, c.f1.s1, c.f1.s2)
    let c := { c with f1 := { c.f1 with s0 := c.f2.s0, s1 := c.f2.s1, s2 := c.f2.s2 } }
    let c := { c with f2 := { c.f2 with s0 := c.f3.s0, s1 := c.f3.s1, s2 := c.f3.s2 } }
    let c := { c with f3 := { c.f3 with s0 := c.f4.s0, s1 := c.f4.s1, s2 := c.f4.s2 } }
    let c := { c with f4 := { c.f4 with s0 := temp.1, s1 := temp.2.1, s2 := temp.2.2 } }
    c
  | "U'" =>
    let c := { cube with f0 := applyPermutation cube.f0 facePermutationPrime }
    let temp := (c.f1.s0, c.f1.s1, c.f1.s2)
    let c := { c with f1 := { c.f1 with s0 := c.f4.s0, s1 := c.f4.s1, s2 := c.f4.s2 } }
    let c := { c with f4 := { c.f4 with s0 := c.f3.s0, s1 := c.f3.s1, s2 := c.f3.s2 } }
    let c := { c with f3 := { c.f3 with s0 := c.f2.s0, s1 := c.f2.s1, s2 := c.f2.s2 } }
    let c := { c with f2 := { c.f2 with s0 := temp.1, s1 := temp.2.1, s2 := temp.2.2 } }
    c
  | "U2" =>
    let c := { cube with f0 := applyPermutation cube.f0 facePermutation2 }
    let temp := (c.f1.s0, c.f1.s1, c.f1.s2)
    let c := { c with f1 := { c.f1 with s0 := c.f3.s0, s1 := c.f3.s1, s2 := c.f3.s2 } }
    let c := { c with f3 := { c.f3 with s0 := temp.1, s1 := temp.2.1, s2 := temp.2.2 } }
    let temp2 := (c.f2.s0, c.f2.s1, c.f2.s2)
    let c := { c with f2 := { c.f2 with s0 := c.f4.s0, s1 := c.f4.s1, s2 := c.f4.s2 } }
    let c := { c with f4 := { c.f4 with s0 := temp2.1, s1 := temp2.2.1, s2 := temp2.2.2 } }
    c
  | "D" =>
    let c := { cube with f5 := applyPermutation cube.f5 facePermutation }
    let temp := (c.f1.s6, c.f1.s7, c.f1.s8)
    let c := { c with f1 := { c.f1 with s6 := c.f4.s6, s7 := c.f4.s7, s8 := c.f4.s8 } }
    let c := { c with f4 := { c.f4 with s6 := c.f3.s6, s7 := c.f3.s7, s8 := c.f3.s8 } }
    let c := { c with f3 := { c.f3 with s6 := c.f2.s6, s7 := c.f2.s7, s8 := c.f2.s8 } }
    let c := { c with f2 := { c.f2 with s6 := temp.1, s7 := temp.2.1, s8 := temp.2.2 } }
    c
  | "D'" =>
    let c := { cube with f5 := applyPermutation cube.f5 facePermutationPrime }
    let temp := (c.f1.s6, c.f1.s7, c.f1.s8)
    let c := { c with f1 := { c.f1 with s6 := c.f2.s6, s7 := c.f2.s7, s8 := c.f2.s8 } }
    let c := { c with f2 := { c.f2 with s6 := c.f3.s6, s7 := c.f3.s7, s8 := c.f3.s8 } }
    let c := { c with f3 := { c.f3 with s6 := c.f4.s6, s7 := c.f4.s7, s8 := c.f4.s8 } }
    let c := { c with f4 := { c.f4 with s6 := temp.1, s7 := temp.2.1, s8 := temp.2.2 } }
    c
  | "D2" =>
    let c := { cube with f5 := applyPermutation cube.f5 facePermutation2 }
    let temp := (c.f1.s6, c.f1.s7, c.f1.s8)
    let c := { c with f1 := { c.f1 with s6 := c.f3.s6, s7 := c.f3.s7, s8 := c.f3.s8 } }
    let c := { c with f3 := { c.f3 with s6 := temp.1, s7 := temp.2.1, s8 := temp.2.2 } }
    let temp2 := (c.f2.s6, c.f2.s7, c.f2.s8)
    let c := { c with f2 := { c.f2 with s6 := c.f4.s6, s7 := c.f4.s7, s8 := c.f4.s8 } }
    let c := { c with f4 := { c.f4 with s6 := temp2.1, s7 := temp2.2.1, s8 := temp2.2.2 } }
    c
  | "R" =>
    let c := { cube with f3 := applyPermutation cube.f3 facePermutation }
    let temp := (c.f0.s2, c.f0.s5, c.f0.s8)
    let c := { c with f0 := { c.f0 with s2 := c.f2.s2, s5 := c.f2.s5, s8 := c.f2.s8 } }
    let c := { c with f2 := { c.f2 with s2 := c.f5.s2, s5 := c.f5.s5, s8 := c.f5.s8 } }
    let c := { c with f5 := { c.f5 with s2 := c.f4.s6, s5 := c.f4.s3, s8 := c.f4.s0 } }
    let c := { c with f4 := { c.f4 with s6 := temp.1, s3 := temp.2.1, s0 := temp.2.2 } }
    c
  | "R'" =>
    let c := { cube with f3 := applyPermutation cube.f3 facePermutationPrime }
    let temp := (c.f0.s2, c.f0.s5, c.f0.s8)
    let c := { c with f0 := { c.f0 with s2 := c.f4.s6, s5 := c.f4.s3, s8 := c.f4.s0 } }
    let c := { c with f4 := { c.f4 with s6 := c.f5.s2, s3 := c.f5.s5, s0 := c.f5.s8 } }
    let c := { c with f5 := { c.f5 with s2 := c.f2.s2, s5 := c.f2.s5, s8 := c.f2.s8 } }
    let c := { c with f2 := { c.f2 with s2 := temp.1, s5 := temp.2.1, s8 := temp.2.2 } }
    c
  | "R2" =>
    let c := { cube with f3 := applyPermutation cube.f3 facePermutation2 }
    let temp := (c.f0.s2, c.f0.s5, c.f0.s8)
    let c := { c with f0 := { c.f0 with s2 := c.f5.s2, s5 := c.f5.s5, s8 := c.f5.s8 } }
    let c := { c with f5 := { c.f5 with s2 := temp.1, s5 := temp.2.1, s8 := temp.2.2 } }
    let temp2 := (c.f2.s2, c.f2.s5, c.f2.s8)
    let c := { c with f2 := { c.f2 with s2 := c.f4.s6, s5 := c.f4.s3, s8 := c.f4.s0 } }
    let c := { c with f4 := { c.f4 with s6 := temp2.1, s3 := temp2.2.1, s0 := temp2.2.2 } }
    c
  | "L" =>
    let c := { cube with f1 := applyPermutation cube.f1 facePermutation }
    let temp := (c.f0.s0, c.f0.s3, c.f0.s6)
    let c := { c with f0 := { c.f0 with s0 := c.f4.s8, s3 := c.f4.s5, s6 := c.f4.s2 } }
    let c := { c with f4 := { c.f4 with s8 := c.f5.s0, s5 := c.f5.s3, s2 := c.f5.s6 } }
    let c := { c with f5 := { c.f5 with s0 := c.f2.s0, s3 := c.f2.s3, s6 := c.f2.s6 } }
    let c := { c with f2 := { c.f2 with s0 := temp.1, s3 := temp.2.1, s6 := temp.2.2 } }
    c
  | "L'" =>
    let c := { cube with f1 := applyPermutation cube.f1 facePermutationPrime }
    let temp := (c.f0.s0, c.f0.s3, c.f0.s6)
    let c := { c with f0 := { c.f0 with s0 := c.f2.s0, s3 := c.f2.s3, s6 := c.f2.s6 } }
    let c := { c with f2 := { c.f2 with s0 := c.f5.s0, s3 := c.f5.s3, s6 := c.f5.s6 } }
    let c := { c with f5 := { c.f5 with s0 := c.f4.s8, s3 := c.f4.s5, s6 := c.f4.s2 } }
    let c := { c with f4 := { c.f4 with s8 := temp.1, s5 := temp.2.1, s2 := temp.2.2 } }
    c
  | "L2" =>
    let c := { cube with f1 := applyPermutation cube.f1 facePermutation2 }
    let temp := (c.f0.s0, c.f0.s3, c.f0.s6)
    let c := { c with f0 := { c.f0 with s0 := c.f5.s0, s3 := c.f5.s3, s6 := c.f5.s6 } }
    let c := { c with f5 := { c.f5 with s0 := temp.1, s3 := temp.2.1, s6 := temp.2.2 } }
    let temp2 := (c.f2.s0, c.f2.s3, c.f2.s6)
    let c := { c with f2 := { c.f2 with s0 := c.f4.s8, s3 := c.f4.s5, s6 := c.f4.s2 } }
    let c := { c with f4 := { c.f4 with s8 := temp2.1, s5 := temp2.2.1, s2 := temp2.2.2 } }
    c
  | _ => cube

/-- The 12-move vocabulary (source lines 383, 420, 523, 612). -/
def validMoves : List String :=
  ["U", "U'", "U2", "D", "D'", "D2", "R", "R'", "R2", "L", "L'", "L2"]

/-- The inverse pairing of the vocabulary as the claim states it: `U`
with `U'`, `D` with `D'`, `R` with `R'`, `L` with `L'`, and each
half-turn its own inverse (not a function of the source, which never
names inverses; it is the pairing quantified over in claim C1). -/
def inverse : String → String
  | "U" => "U'"
  | "U'" => "U"
  | "U2" => "U2"
  | "D" => "D'"
  | "D'" => "D"
  | "D2" => "D2"
  | "R" => "R'"
  | "R'" => "R"
  | "R2" => "R2"
  | "L" => "L'"
  | "L'" => "L"
  | "L2" => "L2"
  | m => m

/-! ### Helper lemmas about the move engine -/

/-- A string that is not one of the 12 move names falls through the
switch of `applyMove` and the untouched copy is returned. -/
lemma applyMove_of_not_mem (s : CubeState) (m : String) (hm : m ∉ validMoves) :
    applyMove s m = s := by
  unfold applyMove
  split <;> simp_all [validMoves]

/-- Each legal move only permutes the 54 facelets: the multiset of
facelet values is unchanged by `applyMove`. -/
lemma applyMove_facelets_coe (s : CubeState) (m : String) (hm : m ∈ validMoves) :
    (allFacelets (applyMove s m) : Multiset Nat) = (allFacelets s : Multiset Nat) := by
  obtain ⟨⟨a0,a1,a2,a3,a4,a5,a6,a7,a8⟩,⟨b0,b1,b2,b3,b4,b5,b6,b7,b8⟩,⟨c0,c1,c2,c3,c4,c5,c6,c7,c8⟩,⟨d0,d1,d2,d3,d4,d5,d6,d7,d8⟩,⟨e0,e1,e2,e3,e4,e5,e6,e7,e8⟩,⟨g0,g1,g2,g3,g4,g5,g6,g7,g8⟩⟩ := s
  fin_cases hm
  · show (([a6, a3, a0, a7, a4, a1, a8, a5, a2, c0, c1, c2, b3, b4, b5, b6, b7, b8, d0, d1, d2, c3, c4, c5, c6, c7, c8, e0, e1, e2, d3, d4, d5, d6, d7, d8, b0, b1, b2, e3, e4, e5, e6, e7, e8, g0, g1, g2, g3, g4, g5, g6, g7, g8] : List Nat) : Multiset Nat) = (([a0, a1, a2, a3, a4, a5, a6, a7, a8, b0, b1, b2, b3, b4, b5, b6, b7, b8, c0, c1, c2, c3, c4, c5, c6, c7, c8, d0, d1, d2, d3, d4, d5, d6, d7, d8, e0, e1, e2, e3, e4, e5, e6, e7, e8, g0, g1, g2, g3, g4, g5, g6, g7, g8] : List Nat) : Multiset Nat)
    simp only [← Multiset.cons_coe, Multiset.coe_nil, ← Multiset.singleton_add]
    ac_rfl
  · show (([a2, a5, a8, a1, a4, a7, a0, a3, a6, e0, e1, e2, b3, b4, b5, b6, b7, b8, b0, b1, b2, c3, c4, c5, c6, c7, c8, c0, c1, c2, d3, d4, d5, d6, d7, d8, d0, d1, d2, e3, e4, e5, e6, e7, e8, g0, g1, g2, g3, g4, g5, g6, g7, g8] : List Nat) : Multiset Nat) = (([a0, a1, a2, a3, a4, a5, a6, a7, a8, b0, b1, b2, b3, b4, b5, b6, b7, b8, c0, c1, c2, c3, c4, c5, c6, c7, c8, d0, d1, d2, d3, d4, d5, d6, d7, d8, e0, e1, e2, e3, e4, e5, e6, e7, e8, g0, g1, g2, g3, g4, g5, g6, g7, g8] : List Nat) : Multiset Nat)
    simp only [← Multiset.cons_coe, Multiset.coe_nil, ← Multiset.singleton_add]
    ac_rfl
  · show (([a8, a7, a6, a5, a4, a3, a2, a1, a0, d0, d1, d2, b3, b4, b5, b6, b7, b8, e0, e1, e2, c3, c4, c5, c6, c7, c8, b0, b1, b2, d3, d4, d5, d6, d7, d8, c0, c1, c2, e3, e4, e5, e6, e7, e8, g0, g1, g2, g3, g4, g5, g6, g7, g8] : List Nat) : Multiset Nat) = (([a0, a1, a2, a3, a4, a5, a6, a7, a8, b0, b1, b2, b3, b4, b5, b6, b7, b8, c0, c1, c2, c3, c4, c5, c6, c7, c8, d0, d1, d2, d3, d4, d5, d6, d7, d8, e0, e1, e2, e3, e4, e5, e6, e7, e8, g0, g1, g2, g3, g4, g5, g6, g7, g8] : List Nat) : Multiset Nat)
    simp only [← Multiset.cons_coe, Multiset.coe_nil, ← Multiset.singleton_add]
    ac_rfl
  · show (([a0, a1, a2, a3, a4, a5, a6, a7, a8, b0, b1, b2, b3, b4, b5, e6, e7, e8, c0, c1, c2, c3, c4, c5, b6, b7, b8, d0, d1, d2, d3, d4, d5, c6, c7, c8, e0, e1, e2, e3, e4, e5, d6, d7, d8, g6, g3, g0, g7, g4, g1, g8, g5, g2] : List Nat) : Multiset Nat) = (([a0, a1, a2, a3, a4, a5, a6, a7, a8, b0, b1, b2, b3, b4, b5, b6, b7, b8, c0, c1, c2, c3, c4, c5, c6, c7, c8, d0, d1, d2, d3, d4, d5, d6, d7, d8, e0, e1, e2, e3, e4, e5, e6, e7, e8, g0, g1, g2, g3, g4, g5, g6, g7, g8] : List Nat) : Multiset Nat)
    simp only [← Multiset.cons_coe, Multiset.coe_nil, ← Multiset.singleton_add]
    ac_rfl
  · show (([a0, a1, a2, a3, a4, a5, a6, a7, a8, b0, b1, b2, b3, b4, b5, c6, c7, c8, c0, c1, c2, c3, c4, c5, d6, d7, d8, d0, d1, d2, d3, d4, d5, e6, e7, e8, e0, e1, e2, e3, e4, e5, b6, b7, b8, g2, g5, g8, g1, g4, g7, g0, g3, g6] : List Nat) : Multiset Nat) = (([a0, a1, a2, a3, a4, a5, a6, a7, a8, b0, b1, b2, b3, b4, b5, b6, b7, b8, c0, c1, c2, c3, c4, c5, c6, c7, c8, d0, d1, d2, d3, d4, d5, d6, d7, d8, e0, e1, e2, e3, e4, e5, e6, e7, e8, g0, g1, g2, g3, g4, g5, g6, g7, g8] : List Nat) : Multiset Nat)
    simp only [← Multiset.cons_coe, Multiset.coe_nil, ← Multiset.singleton_add]
    ac_rfl
  · show (([a0, a1, a2, a3, a4, a5, a6, a7, a8, b0, b1, b2, b3, b4, b5, d6, d7, d8, c0, c1, c2, c3, c4, c5, e6, e7, e8, d0, d1, d2, d3, d4, d5, b6, b7, b8, e0, e1, e2, e3, e4, e5, c6, c7, c8, g8, g7, g6, g5, g4, g3, g2, g1, g0] : List Nat) : Multiset Nat) = (([a0, a1, a2, a3, a4, a5, a6, a7, a8, b0, b1, b2, b3, b4, b5, b6, b7, b8, c0, c1, c2, c3, c4, c5, c6, c7, c8, d0, d1, d2, d3, d4, d5, d6, d7, d8, e0, e1, e2, e3, e4, e5, e6, e7, e8, g0, g1, g2, g3, g4, g5, g6, g7, g8] : List Nat) : Multiset Nat)
    simp only [← Multiset.cons_coe, Multiset.coe_nil, ← Multiset.singleton_add]
    ac_rfl
  · show (([a0, a1, c2, a3, a4, c5, a6, a7, c8, b0, b1, b2, b3, b4, b5, b6, b7, b8, c0, c1, g2, c3, c4, g5, c6, c7, g8, d6, d3, d0, d7, d4, d1, d8, d5, d2, a8, e1, e2, a5, e4, e5, a2, e7, e8, g0, g1, e6, g3, g4, e3, g6, g7, e0] : List Nat) : Multiset Nat) = (([a0, a1, a2, a3, a4, a5, a6, a7, a8, b0, b1, b2, b3, b4, b5, b6, b7, b8, c0, c1, c2, c3, c4, c5, c6, c7, c8, d0, d1, d2, d3, d4, d5, d6, d7, d8, e0, e1, e2, e3, e4, e5, e6, e7, e8, g0, g1, g2, g3, g4, g5, g6, g7, g8] : List Nat) : Multiset Nat)
    simp only [← Multiset.cons_coe, Multiset.coe_nil, ← Multiset.singleton_add]
    ac_rfl
  · show (([a0, a1, e6, a3, a4, e3, a6, a7, e0, b0, b1, b2, b3, b4, b5, b6, b7, b8, c0, c1, a2, c3, c4, a5, c6, c7, a8, d2, d5, d8, d1, d4, d7, d0, d3, d6, g8, e1, e2, g5, e4, e5, g2, e7, e8, g0, g1, c2, g3, g4, c5, g6, g7, c8] : List Nat) : Multiset Nat) = (([a0, a1, a2, a3, a4, a5, a6, a7, a8, b0, b1, b2, b3, b4, b5, b6, b7, b8, c0, c1, c2, c3, c4, c5, c6, c7, c8, d0, d1, d2, d3, d4, d5, d6, d7, d8, e0, e1, e2, e3, e4, e5, e6, e7, e8, g0, g1, g2, g3, g4, g5, g6, g7, g8] : List Nat) : Multiset Nat)
    simp only [← Multiset.cons_coe, Multiset.coe_nil, ← Multiset.singleton_add]
    ac_rfl
  · show (([a0, a1, g2, a3, a4, g5, a6, a7, g8, b0, b1, b2, b3, b4, b5, b6, b7, b8, c0, c1, e6, c3, c4, e3, c6, c7, e0, d8, d7, d6, d5, d4, d3, d2, d1, d0, c8, e1, e2, c5, e4, e5, c2, e7, e8, g0, g1, a2, g3, g4, a5, g6, g7, a8] : List Nat) : Multiset Nat) = (([a0, a1, a2, a3, a4, a5, a6, a7, a8, b0, b1, b2, b3, b4, b5, b6, b7, b8, c0, c1, c2, c3, c4, c5, c6, c7, c8, d0, d1, d2, d3, d4, d5, d6, d7, d8, e0, e1, e2, e3, e4, e5, e6, e7, e8, g0, g1, g2, g3, g4, g5, g6, g7, g8] : List Nat) : Multiset Nat)
    simp only [← Multiset.cons_coe, Multiset.coe_nil, ← Multiset.singleton_add]
    ac_rfl
  · show (([e8, a1, a2, e5, a4, a5, e2, a7, a8, b6, b3, b0, b7, b4, b1, b8, b5, b2, a0, c1, c2, a3, c4, c5, a6, c7, c8, d0, d1, d2, d3, d4, d5, d6, d7, d8, e0, e1, g6, e3, e4, g3, e6, e7, g0, c0, g1, g2, c3, g4, g5, c6, g7, g8] : List Nat) : Multiset Nat) = (([a0, a1, a2, a3, a4, a5, a6, a7, a8, b0, b1, b2, b3, b4, b5, b6, b7, b8, c0, c1, c2, c3, c4, c5, c6, c7, c8, d0, d1, d2, d3, d4, d5, d6, d7, d8, e0, e1, e2, e3, e4, e5, e6, e7, e8, g0, g1, g2, g3, g4, g5, g6, g7, g8] : List Nat) : Multiset Nat)
    simp only [← Multiset.cons_coe, Multiset.coe_nil, ← Multiset.singleton_add]
    ac_rfl
  · show (([c0, a1, a2, c3, a4, a5, c6, a7, a8, b2, b5, b8, b1, b4, b7, b0, b3, b6, g0, c1, c2, g3, c4, c5, g6, c7, c8, d0, d1, d2, d3, d4, d5, d6, d7, d8, e0, e1, a6, e3, e4, a3, e6, e7, a0, e8, g1, g2, e5, g4, g5, e2, g7, g8] : List Nat) : Multiset Nat) = (([a0, a1, a2, a3, a4, a5, a6, a7, a8, b0, b1, b2, b3, b4, b5, b6, b7, b8, c0, c1, c2, c3, c4, c5, c6, c7, c8, d0, d1, d2, d3, d4, d5, d6, d7, d8, e0, e1, e2, e3, e4, e5, e6, e7, e8, g0, g1, g2, g3, g4, g5, g6, g7, g8] : List Nat) : Multiset Nat)
    simp only [← Multiset.cons_coe, Multiset.coe_nil, ← Multiset.singleton_add]
    ac_rfl
  · show (([g0, a1, a2, g3, a4, a5, g6, a7, a8, b8, b7, b6, b5, b4, b3, b2, b1, b0, e8, c1, c2, e5, c4, c5, e2, c7, c8, d0, d1, d2, d3, d4, d5, d6, d7, d8, e0, e1, c6, e3, e4, c3, e6, e7, c0, a0, g1, g2, a3, g4, g5, a6, g7, g8] : List Nat) : Multiset Nat) = (([a0, a1, a2, a3, a4, a5, a6, a7, a8, b0, b1, b2, b3, b4, b5, b6, b7, b8, c0, c1, c2, c3, c4, c5, c6, c7, c8, d0, d1, d2, d3, d4, d5, d6, d7, d8, e0, e1, e2, e3, e4, e5, e6, e7, e8, g0, g1, g2, g3, g4, g5, g6, g7, g8] : List Nat) : Multiset Nat)
    simp only [← Multiset.cons_coe, Multiset.coe_nil, ← Multiset.singleton_add]
    ac_rfl

/-- The multiset of facelet values is unchanged by `applyMove` for every
move string, legal or not. -/
lemma applyMove_facelets_coe_all (s : CubeState) (m : String) :
    (allFacelets (applyMove s m) : Multiset Nat) = (allFacelets s : Multiset Nat) := by
  by_cases hm : m ∈ validMoves
  · exact applyMove_facelets_coe s m hm
  · rw [applyMove_of_not_mem s m hm]

/-- Count form of facelet preservation. -/
lemma applyMove_count (s : CubeState) (m : String) (v : Nat) :
    (allFacelets (applyMove s m)).count v = (allFacelets s).count v := by
  have h := applyMove_facelets_coe_all s m
  calc (allFacelets (applyMove s m)).count v
      = Multiset.count v (allFacelets (applyMove s m) : Multiset Nat) := by
        rw [Multiset.coe_count]
    _ = Multiset.count v (allFacelets s : Multiset Nat) := by rw [h]
    _ = (allFacelets s).count v := by rw [Multiset.coe_count]

/-! ### Helper lemmas about the canonical hash key -/

lemma repr_data_of_lt10 : ∀ n, n < 10 → (Nat.repr n).data = [Nat.digitChar n] := by decide

lemma digitChar_inj : ∀ a, a < 10 → ∀ b, b < 10 → Nat.digitChar a = Nat.digitChar b → a = b := by
  decide

lemma foldl_append_data (l : List String) (acc : String) :
    (l.foldl (fun r s => r ++ s) acc).data = acc.data ++ (l.map String.data).flatten := by
  induction l generalizing acc with
  | nil => simp
  | cons x xs ih => simp [List.foldl_cons, ih, String.data_append]

lemma join_data (l : List String) :
    (String.join l).data = (l.map String.data).flatten := by
  simp [String.join, foldl_append_data]

lemma join_repr_data (xs : List Nat) (h : ∀ v ∈ xs, v < 10) :
    (String.join (xs.map Nat.repr)).data = xs.map Nat.digitChar := by
  rw [join_data, List.map_map]
  induction xs with
  | nil => simp
  | cons x xs ih =>
    have hx : x < 10 := h x (List.mem_cons_self x xs)
    simp only [List.map_cons, List.flatten_cons, Function.comp]
    rw [repr_data_of_lt10 x hx, ih (fun v hv => h v (List.mem_cons_of_mem x hv))]
    rfl

lemma map_digitChar_inj (xs : List Nat) (hx : ∀ v ∈ xs, v < 10) :
    ∀ ys, (∀ v ∈ ys, v < 10) → xs.map Nat.digitChar = ys.map Nat.digitChar → xs = ys := by
  induction xs with
  | nil => intro ys _ h; cases ys <;> simp_all
  | cons x xs ih =>
    intro ys hy h
    cases ys with
    | nil => simp_all
    | cons y ys =>
      simp only [List.map_cons, List.cons.injEq] at h
      have hxy : x = y := digitChar_inj x (hx x (by simp)) y (hy y (by simp)) h.1
      have := ih (fun v hv => hx v (by simp [hv])) ys (fun v hv => hy v (by simp [hv])) h.2
      simp [hxy, this]

lemma intercalate6_data (x0 x1 x2 x3 x4 x5 : String) :
    (String.intercalate "|" [x0, x1, x2, x3, x4, x5]).data =
      x0.data ++ '|' :: (x1.data ++ '|' :: (x2.data ++ '|' :: (x3.data ++ '|' ::
        (x4.data ++ '|' :: x5.data)))) := by
  show (x0 ++ "|" ++ x1 ++ "|" ++ x2 ++ "|" ++ x3 ++ "|" ++ x4 ++ "|" ++ x5).data = _
  simp [String.data_append]

lemma Face.toList_inj (f g : Face) (h : f.toList = g.toList) : f = g := by
  cases f
  cases g
  simp_all [Face.toList]

lemma allFacelets_eq (c : CubeState) :
    allFacelets c = c.f0.toList ++ (c.f1.toList ++ (c.f2.toList ++ (c.f3.toList ++
      (c.f4.toList ++ c.f5.toList)))) := by
  simp [allFacelets, facesList]

lemma hashCubeState_data (c : CubeState) (hc : ∀ v ∈ allFacelets c, v < 10) :
    (hashCubeState c).data =
      c.f0.toList.map Nat.digitChar ++ '|' :: (c.f1.toList.map Nat.digitChar ++ '|' ::
        (c.f2.toList.map Nat.digitChar ++ '|' :: (c.f3.toList.map Nat.digitChar ++ '|' ::
          (c.f4.toList.map Nat.digitChar ++ '|' :: c.f5.toList.map Nat.digitChar)))) := by
  have hm : ∀ i ∈ facesList c, ∀ v ∈ i, v < 10 := by
    intro i hi v hv
    refine hc v ?_
    rw [allFacelets_eq]
    simp only [facesList, List.mem_cons, List.not_mem_nil, or_false] at hi
    rcases hi with h | h | h | h | h | h <;> subst h <;> simp [List.mem_append, hv]
  show (String.intercalate "|" ((facesList c).map
    (fun face => String.join (face.map Nat.repr)))).data = _
  simp only [facesList, List.map_cons, List.map_nil]
  rw [intercalate6_data]
  rw [join_repr_data _ (hm c.f0.toList (by simp [facesList])),
      join_repr_data _ (hm c.f1.toList (by simp [facesList])),
      join_repr_data _ (hm c.f2.toList (by simp [facesList])),
      join_repr_data _ (hm c.f3.toList (by simp [facesList])),
      join_repr_data _ (hm c.f4.toList (by simp [facesList])),
      join_repr_data _ (hm c.f5.toList (by simp [facesList]))]

lemma hashCubeState_inj (s t : CubeState)
    (hs : ∀ v ∈ allFacelets s, v < 10) (ht : ∀ v ∈ allFacelets t, v < 10)
    (h : hashCubeState s = hashCubeState t) : s = t := by
  have hd := String.ext_iff.mp h
  rw [hashCubeState_data s hs, hashCubeState_data t ht] at hd
  have mem0 : ∀ v ∈ s.f0.toList, v < 10 := fun v hv => hs v (by rw [allFacelets_eq]; simp [hv])
  have mem1 : ∀ v ∈ s.f1.toList, v < 10 := fun v hv => hs v (by rw [allFacelets_eq]; simp [hv])
  have mem2 : ∀ v ∈ s.f2.toList, v < 10 := fun v hv => hs v (by rw [allFacelets_eq]; simp [hv])
  have mem3 : ∀ v ∈ s.f3.toList, v < 10 := fun v hv => hs v (by rw [allFacelets_eq]; simp [hv])
  have mem4 : ∀ v ∈ s.f4.toList, v < 10 := fun v hv => hs v (by rw [allFacelets_eq]; simp [hv])
  have mem5 : ∀ v ∈ s.f5.toList, v < 10 := fun v hv => hs v (by rw [allFacelets_eq]; simp [hv])
  have mem0t : ∀ v ∈ t.f0.toList, v < 10 := fun v hv => ht v (by rw [allFacelets_eq]; simp [hv])
  have mem1t : ∀ v ∈ t.f1.toList, v < 10 := fun v hv => ht v (by rw [allFacelets_eq]; simp [hv])
  have mem2t : ∀ v ∈ t.f2.toList, v < 10 := fun v hv => ht v (by rw [allFacelets_eq]; simp [hv])
  have mem3t : ∀ v ∈ t.f3.toList, v < 10 := fun v hv => ht v (by rw [allFacelets_eq]; simp [hv])
  have mem4t : ∀ v ∈ t.f4.toList, v < 10 := fun v hv => ht v (by rw [allFacelets_eq]; simp [hv])
  have mem5t : ∀ v ∈ t.f5.toList, v < 10 := fun v hv => ht v (by rw [allFacelets_eq]; simp [hv])
  obtain ⟨h0, hd⟩ := List.append_inj hd (by simp [Face.toList])
  injection hd with _ hd
  obtain ⟨h1, hd⟩ := List.append_inj hd (by simp [Face.toList])
  injection hd with _ hd
  obtain ⟨h2, hd⟩ := List.append_inj hd (by simp [Face.toList])
  injection hd with _ hd
  obtain ⟨h3, hd⟩ := List.append_inj hd (by simp [Face.toList])
  injection hd with _ hd
  obtain ⟨h4, h5⟩ := List.append_inj hd (by simp [Face.toList])
  injection h5 with _ h5
  have e0 := Face.toList_inj _ _ (map_digitChar_inj _ mem0 _ mem0t h0)
  have e1 := Face.toList_inj _ _ (map_digitChar_inj _ mem1 _ mem1t h1)
  have e2 := Face.toList_inj _ _ (map_digitChar_inj _ mem2 _ mem2t h2)
  have e3 := Face.toList_inj _ _ (map_digitChar_inj _ mem3 _ mem3t h3)
  have e4 := Face.toList_inj _ _ (map_digitChar_inj _ mem4 _ mem4t h4)
  have e5 := Face.toList_inj _ _ (map_digitChar_inj _ mem5 _ mem5t h5)
  cases s
  cases t
  simp_all

/-! ### The search engine

The source's `solveCube` (lines 400-472) drives a cooperative loop
`processNextState`: sort the frontier by `fScore`, shift the head, prune
it if its hash is already visited, otherwise mark it visited, test the
goal, and push the not-yet-visited neighbors. The loop is embedded as a
step function on a reified search context plus a fuel-indexed runner
(the `setTimeout` trampoline re-invokes the step; `none` below means the
fuel ran out before the search resolved). The heuristic provider is
passed as a function argument `hfun`; its values never matter to the
soundness claims, and the source's stateful provider is modelled
separately below. `timeMs` is wall-clock time in the source and is
modelled as 0. -/

/-- Source `SolveResult` (lines 7-11). -/
structure SolveResult where
  moves : List String
  statesExplored : Nat
  timeMs : Nat
deriving DecidableEq

/-- Source `State` (lines 13-19): a search node. -/
structure SNode where
  cube : CubeState
  gScore : Nat
  hScore : Nat
  fScore : Nat
  moves : List String
deriving DecidableEq

/-- The mutable state of one search invocation: the frontier array
`openSet` and the `visited` set of canonical keys (lines 406-407). -/
structure SearchCtx where
  openSet : List SNode
  visited : Finset String
deriving DecidableEq

/-- Outcome of one `processNextState` step: either the promise resolves
with a result, or the trampoline schedules another step. -/
inductive StepRes where
  | done (r : SolveResult)
  | next (ctx : SearchCtx)
deriving DecidableEq

/-- Source line 428: `openSet.sort((a, b) => a.fScore - b.fScore)`.
JS `Array.prototype.sort` is a stable ascending sort, and the stable
ascending reordering under a total preorder is unique, so any stable
sort embeds it; insertion sort is used because it is structurally
recursive (kernel-evaluable). -/
def sortOpen (l : List SNode) : List SNode :=
  l.insertionSort (fun a b => a.fScore ≤ b.fScore)

/-- Source lines 449-465: for each of the 12 legal moves compute the
neighbor state and, unless its hash is already visited, build the
neighbor node (the source first sets `fScore` to 0 and then overwrites
it with `gScore + hScore`; the net node is built here directly). -/
def expandNeighbors (hfun : CubeState → CubeState → Nat) (goal : CubeState)
    (currentState : SNode) (visited : Finset String) : List SNode :=
  validMoves.filterMap (fun move =>
    let neighborCube := applyMove currentState.cube move
    let neighborHash := hashCubeState neighborCube
    if neighborHash ∈ visited then none
    else some
      { cube := neighborCube
        gScore := currentState.gScore + 1
        hScore := hfun neighborCube goal
        fScore := currentState.gScore + 1 + hfun neighborCube goal
        moves := currentState.moves ++ [move] })

/-- Source `processNextState` (lines 422-468): one expansion step. The
source checks `openSet.length === 0` before sorting; sorting preserves
emptiness, so the match on the sorted frontier is the same test.
`shift()` removes the head; later pushes append to the remaining array. -/
def processNextState (hfun : CubeState → CubeState → Nat) (goal : CubeState)
    (ctx : SearchCtx) : StepRes :=
  match sortOpen ctx.openSet with
  | [] => .done ⟨[], ctx.visited.card, 0⟩
  | currentState :: rest =>
    let currentHash := hashCubeState currentState.cube
    if currentHash ∈ ctx.visited then .next ⟨rest, ctx.visited⟩
    else
      let visited' := insert currentHash ctx.visited
      if isGoal currentState.cube goal then .done ⟨currentState.moves, visited'.card, 0⟩
      else .next ⟨rest ++ expandNeighbors hfun goal currentState visited', visited'⟩

/-- The `setTimeout` trampoline of lines 433, 467, 470: keep stepping
until the promise resolves; `none` when the fuel is exhausted first. -/
def runSearch (hfun : CubeState → CubeState → Nat) (goal : CubeState) :
    Nat → SearchCtx → Option SolveResult
  | 0, _ => none
  | Nat.succ fuel, ctx =>
    match processNextState hfun goal ctx with
    | .done r => some r
    | .next ctx' => runSearch hfun goal fuel ctx'

/-- Source lines 409-416: the start node with `g = 0`, `h` from the
heuristic, `f = g + h` and the empty move path. -/
def initialState (hfun : CubeState → CubeState → Nat)
    (scrambledCube goalCube : CubeState) : SNode :=
  { cube := scrambledCube
    gScore := 0
    hScore := hfun scrambledCube goalCube
    fScore := 0 + hfun scrambledCube goalCube
    moves := [] }

/-- Source `solveCube` (lines 400-472): search from a fresh context
holding only the start node and an empty visited set. -/
def solveCubeModel (fuel : Nat) (hfun : CubeState → CubeState → Nat)
    (scrambledCube goalCube : CubeState) : Option SolveResult :=
  runSearch hfun goalCube fuel ⟨[initialState hfun scrambledCube goalCube], ∅⟩

/-- Source `scrambleCube` (lines 382-394): starting from the solved
state apply `moves` randomly drawn legal moves; the random draws
`Math.floor(Math.random() * validMoves.length)` are supplied by the
oracle `randomPick` (reduced modulo 12 to stay a legal index). Returns
the final state and the applied move names. -/
def scrambleCube (moves : Nat) (randomPick : Nat → Nat) : CubeState × List String :=
  (List.range moves).foldl
    (fun acc i =>
      let randomMove := validMoves.getD (randomPick i % validMoves.length) ""
      (applyMove acc.1 randomMove, acc.2 ++ [randomMove]))
    (createSolvedCube, [])

/-! ### Soundness of the returned move path (claim C2 machinery) -/

/-- A node is consistent with the scramble when its cube is the fold of
its move path over the start state. -/
def NodeConsistent (scrambled : CubeState) (n : SNode) : Prop :=
  n.cube = n.moves.foldl applyMove scrambled

lemma sortOpen_perm (l : List SNode) : (sortOpen l).Perm l :=
  List.perm_insertionSort _ l

lemma mem_sortOpen {x : SNode} {l : List SNode} : x ∈ sortOpen l ↔ x ∈ l :=
  (sortOpen_perm l).mem_iff

lemma expandNeighbors_consistent {hfun goal} {cur : SNode} {visited : Finset String}
    {scrambled : CubeState} (hcur : NodeConsistent scrambled cur) :
    ∀ n ∈ expandNeighbors hfun goal cur visited, NodeConsistent scrambled n := by
  intro n hn
  rcases List.mem_filterMap.mp hn with ⟨move, _, hmove⟩
  dsimp only at hmove
  split at hmove
  · exact absurd hmove (by simp)
  · cases Option.some.inj hmove
    show applyMove cur.cube move = (cur.moves ++ [move]).foldl applyMove scrambled
    rw [List.foldl_append, ← hcur]
    rfl

lemma processNextState_done_char {hfun goal ctx r}
    (h : processNextState hfun goal ctx = .done r) :
    r.moves = [] ∨ ∃ n ∈ ctx.openSet, r.moves = n.moves ∧ isGoal n.cube goal = true := by
  unfold processNextState at h
  split at h
  · cases h
    exact Or.inl rfl
  · rename_i cur rest hSort
    dsimp only at h
    split at h
    · cases h
    · split at h
      · cases h
        refine Or.inr ⟨cur, ?_, rfl, by assumption⟩
        exact mem_sortOpen.mp (hSort ▸ List.mem_cons_self cur rest)
      · cases h

lemma processNextState_next_char {hfun goal ctx ctx'}
    (h : processNextState hfun goal ctx = .next ctx') :
    ∀ n ∈ ctx'.openSet, n ∈ ctx.openSet ∨
      ∃ cur ∈ ctx.openSet, n ∈ expandNeighbors hfun goal cur ctx'.visited := by
  unfold processNextState at h
  split at h
  · cases h
  · rename_i cur rest hSort
    have hmem : ∀ x ∈ rest, x ∈ ctx.openSet := by
      intro x hx
      exact mem_sortOpen.mp (hSort ▸ List.mem_cons_of_mem cur hx)
    have hcur : cur ∈ ctx.openSet := mem_sortOpen.mp (hSort ▸ List.mem_cons_self cur rest)
    dsimp only at h
    split at h
    · cases h
      intro n hn
      exact Or.inl (hmem n hn)
    · split at h
      · cases h
      · cases h
        intro n hn
        rcases List.mem_append.mp hn with hn | hn
        · exact Or.inl (hmem n hn)
        · exact Or.inr ⟨cur, hcur, hn⟩

lemma runSearch_sound {hfun goal scrambled} :
    ∀ fuel ctx r, (∀ n ∈ ctx.openSet, NodeConsistent scrambled n) →
      runSearch hfun goal fuel ctx = some r → r.moves ≠ [] →
      isGoal (r.moves.foldl applyMove scrambled) goal = true := by
  intro fuel
  induction fuel with
  | zero => intro ctx r _ h; cases h
  | succ fuel ih =>
    intro ctx r hinv h hne
    unfold runSearch at h
    revert h
    cases hstep : processNextState hfun goal ctx with
    | done r' =>
      intro h
      cases Option.some.inj h
      rcases processNextState_done_char hstep with h0 | ⟨n, hn, hmoves, hgoal⟩
      · exact absurd h0 hne
      · rw [hmoves, ← (hinv n hn)]
        exact hgoal
    | next ctx' =>
      intro h
      refine ih ctx' r ?_ h hne
      intro n hn
      rcases processNextState_next_char hstep n hn with hmem | ⟨cur, hcur, hexp⟩
      · exact hinv n hmem
      · exact expandNeighbors_consistent (hinv cur hcur) n hexp

lemma solveCubeModel_sound {fuel hfun scrambled goal r}
    (h : solveCubeModel fuel hfun scrambled goal = some r) (hne : r.moves ≠ []) :
    isGoal (r.moves.foldl applyMove scrambled) goal = true := by
  refine runSearch_sound fuel _ r ?_ h hne
  intro n hn
  rcases List.mem_singleton.mp hn with rfl
  rfl

/-! ### Visited-set discipline (claim C6 machinery) -/

/-- Keys are only inserted, never removed: one step can only grow the
visited set. -/
lemma processNextState_mono {hfun goal ctx ctx'}
    (h : processNextState hfun goal ctx = .next ctx') :
    ctx.visited ⊆ ctx'.visited := by
  unfold processNextState at h
  split at h
  · cases h
  · dsimp only at h
    split at h
    · cases h
      exact fun k hk => hk
    · split at h
      · cases h
      · cases h
        exact fun k hk => Finset.mem_insert_of_mem hk

/-- Lazy pop-time pruning: when the popped head's key is already
visited, the node is dropped, nothing is expanded, and the visited set
is unchanged. -/
lemma processNextState_prune {hfun goal ctx} {cur : SNode} {rest : List SNode}
    (hSort : sortOpen ctx.openSet = cur :: rest)
    (hv : hashCubeState cur.cube ∈ ctx.visited) :
    processNextState hfun goal ctx = .next ⟨rest, ctx.visited⟩ := by
  unfold processNextState
  rw [hSort]
  dsimp only
  rw [if_pos hv]

/-- A step inserts at most the popped node's key, and only when that key
was not yet visited (each expansion is of a fresh state). -/
lemma processNextState_insert_char {hfun goal ctx} :
    (∀ ctx', processNextState hfun goal ctx = .next ctx' →
      ctx'.visited = ctx.visited ∨
      ∃ k, k ∉ ctx.visited ∧ ctx'.visited = insert k ctx.visited) ∧
    (∀ r, processNextState hfun goal ctx = .done r →
      r.statesExplored = ctx.visited.card ∨
      ∃ k, k ∉ ctx.visited ∧ r.statesExplored = (insert k ctx.visited).card) := by
  constructor
  · intro ctx' h
    unfold processNextState at h
    split at h
    · cases h
    · dsimp only at h
      split at h
      · cases h
        exact Or.inl rfl
      · split at h
        · cases h
        · cases h
          rename_i cur rest _ hv _
          exact Or.inr ⟨hashCubeState cur.cube, hv, rfl⟩
  · intro r h
    unfold processNextState at h
    split at h
    · cases h
      exact Or.inl rfl
    · dsimp only at h
      split at h
      · cases h
      · split at h
        · cases h
          rename_i cur rest _ hv _
          exact Or.inr ⟨hashCubeState cur.cube, hv, rfl⟩
        · cases h

/-- The keys of the nodes actually expanded (popped with a fresh key)
along a run, in expansion order. The control flow mirrors
`processNextState` / `runSearch` step for step; it only reports which
keys pass the pop-time visited check. -/
def runKeys (hfun : CubeState → CubeState → Nat) (goal : CubeState) :
    Nat → SearchCtx → List String
  | 0, _ => []
  | Nat.succ fuel, ctx =>
    match sortOpen ctx.openSet with
    | [] => []
    | currentState :: rest =>
      if hashCubeState currentState.cube ∈ ctx.visited then
        runKeys hfun goal fuel ⟨rest, ctx.visited⟩
      else if isGoal currentState.cube goal then [hashCubeState currentState.cube]
      else hashCubeState currentState.cube ::
        runKeys hfun goal fuel
          ⟨rest ++ expandNeighbors hfun goal currentState
            (insert (hashCubeState currentState.cube) ctx.visited),
           insert (hashCubeState currentState.cube) ctx.visited⟩

/-- Every key expanded along a run was unvisited when it was expanded,
and no key is ever expanded twice: the trace is duplicate-free. -/
lemma runKeys_fresh_nodup {hfun goal} :
    ∀ fuel ctx, (∀ k ∈ runKeys hfun goal fuel ctx, k ∉ ctx.visited) ∧
      (runKeys hfun goal fuel ctx).Nodup := by
  intro fuel
  induction fuel with
  | zero => intro ctx; simp [runKeys]
  | succ fuel ih =>
    intro ctx
    unfold runKeys
    cases hSort : sortOpen ctx.openSet with
    | nil => simp
    | cons cur rest =>
      dsimp only
      by_cases hv : hashCubeState cur.cube ∈ ctx.visited
      · rw [if_pos hv]
        exact ih ⟨rest, ctx.visited⟩
      · rw [if_neg hv]
        by_cases hg : isGoal cur.cube goal
        · rw [if_pos hg]
          constructor
          · intro k hk
            rcases List.mem_singleton.mp hk with rfl
            exact hv
          · exact List.nodup_singleton _
        · rw [if_neg hg]
          set ctx' : SearchCtx :=
            ⟨rest ++ expandNeighbors hfun goal cur
              (insert (hashCubeState cur.cube) ctx.visited),
             insert (hashCubeState cur.cube) ctx.visited⟩ with hctx'
          obtain ⟨hfresh, hnodup⟩ := ih ctx'
          constructor
          · intro k hk
            rcases List.mem_cons.mp hk with rfl | hk
            · exact hv
            · intro hmem
              exact hfresh k hk (Finset.mem_insert_of_mem hmem)
          · refine List.nodup_cons.mpr ⟨?_, hnodup⟩
            intro hmem
            exact hfresh _ hmem (Finset.mem_insert_self _ _)

/-- `statesExplored` accounting: a resolved search reports the size of
the visited set at resolution, which is the starting size plus the
number of expansions performed. -/
lemma runSearch_statesExplored {hfun goal} :
    ∀ fuel ctx r, runSearch hfun goal fuel ctx = some r →
      r.statesExplored = ctx.visited.card + (runKeys hfun goal fuel ctx).length := by
  intro fuel
  induction fuel with
  | zero => intro ctx r h; cases h
  | succ fuel ih =>
    intro ctx r h
    rw [runSearch] at h
    revert h
    unfold processNextState runKeys
    cases hSort : sortOpen ctx.openSet with
    | nil =>
      intro h
      cases Option.some.inj h
      simp
    | cons cur rest =>
      dsimp only
      by_cases hv : hashCubeState cur.cube ∈ ctx.visited
      · rw [if_pos hv, if_pos hv]
        intro h
        exact ih ⟨rest, ctx.visited⟩ r h
      · rw [if_neg hv, if_neg hv]
        by_cases hg : isGoal cur.cube goal
        · rw [if_pos hg, if_pos hg]
          intro h
          cases Option.some.inj h
          simp [Finset.card_insert_of_not_mem hv]
        · rw [if_neg hg, if_neg hg]
          intro h
          rw [ih _ r h, Finset.card_insert_of_not_mem hv]
          simp
          omega

/-! ### Termination of the search (claim C7 machinery)

Moves permute facelet values, so every state enqueued during a search
has all its facelets drawn from the finite set of values of the start
state. The hash keys of such states form a finite set; each expansion
consumes one unvisited key and each discard shortens the frontier, so
the weighted measure below strictly decreases and the search resolves
within an explicit fuel bound. -/

/-- All facelet values of `c` lie in `S`. -/
def facesIn (S : Finset Nat) (c : CubeState) : Prop :=
  ∀ v ∈ allFacelets c, v ∈ S

lemma applyMove_facesIn {S : Finset Nat} {c : CubeState} {m : String}
    (h : facesIn S c) : facesIn S (applyMove c m) := by
  intro v hv
  apply h
  have hco := applyMove_facelets_coe_all c m
  have hv' : v ∈ (allFacelets (applyMove c m) : Multiset Nat) := by
    simpa using hv
  rw [hco] at hv'
  simpa using hv'

/-- The finite set of faces whose facelets all lie in `S`. -/
def faceFin (S : Finset Nat) : Finset Face :=
  Finset.image
    (fun t : Nat × Nat × Nat × Nat × Nat × Nat × Nat × Nat × Nat =>
      Face.mk t.1 t.2.1 t.2.2.1 t.2.2.2.1 t.2.2.2.2.1 t.2.2.2.2.2.1
        t.2.2.2.2.2.2.1 t.2.2.2.2.2.2.2.1 t.2.2.2.2.2.2.2.2)
    (S ×ˢ S ×ˢ S ×ˢ S ×ˢ S ×ˢ S ×ˢ S ×ˢ S ×ˢ S)

lemma mem_faceFin {S : Finset Nat} {f : Face}
    (h0 : f.s0 ∈ S) (h1 : f.s1 ∈ S) (h2 : f.s2 ∈ S) (h3 : f.s3 ∈ S) (h4 : f.s4 ∈ S)
    (h5 : f.s5 ∈ S) (h6 : f.s6 ∈ S) (h7 : f.s7 ∈ S) (h8 : f.s8 ∈ S) :
    f ∈ faceFin S := by
  refine Finset.mem_image.mpr ⟨⟨f.s0, f.s1, f.s2, f.s3, f.s4, f.s5, f.s6, f.s7, f.s8⟩, ?_, rfl⟩
  simp [Finset.mem_product, h0, h1, h2, h3, h4, h5, h6, h7, h8]

/-- The finite set of cube states whose facelets all lie in `S`. -/
def cubeFin (S : Finset Nat) : Finset CubeState :=
  Finset.image
    (fun t : Face × Face × Face × Face × Face × Face =>
      CubeState.mk t.1 t.2.1 t.2.2.1 t.2.2.2.1 t.2.2.2.2.1 t.2.2.2.2.2)
    (faceFin S ×ˢ faceFin S ×ˢ faceFin S ×ˢ faceFin S ×ˢ faceFin S ×ˢ faceFin S)

lemma mem_cubeFin {S : Finset Nat} {c : CubeState} (h : facesIn S c) :
    c ∈ cubeFin S := by
  refine Finset.mem_image.mpr ⟨⟨c.f0, c.f1, c.f2, c.f3, c.f4, c.f5⟩, ?_, rfl⟩
  simp only [Finset.mem_product]
  refine ⟨?_, ?_, ?_, ?_, ?_, ?_⟩ <;> apply mem_faceFin <;> apply h <;>
    rw [allFacelets_eq] <;> simp [Face.toList]

/-- The finite set of canonical keys of states over `S`. -/
def keysFin (S : Finset Nat) : Finset String :=
  (cubeFin S).image hashCubeState

/-- The decreasing measure of one search step: frontier length plus 13
per reachable-but-unvisited key. -/
def searchMeasure (S : Finset Nat) (ctx : SearchCtx) : Nat :=
  ctx.openSet.length + 13 * ((keysFin S) \ ctx.visited).card

/-- Every frontier node's state lies over `S`. -/
def CtxIn (S : Finset Nat) (ctx : SearchCtx) : Prop :=
  ∀ n ∈ ctx.openSet, facesIn S n.cube

lemma sortOpen_length (l : List SNode) : (sortOpen l).length = l.length :=
  (sortOpen_perm l).length_eq

lemma expandNeighbors_length (hfun : CubeState → CubeState → Nat) (goal : CubeState)
    (cur : SNode) (visited : Finset String) :
    (expandNeighbors hfun goal cur visited).length ≤ 12 :=
  List.length_filterMap_le _ _

lemma expandNeighbors_facesIn {S : Finset Nat} {hfun goal} {cur : SNode}
    {visited : Finset String} (hcur : facesIn S cur.cube) :
    ∀ n ∈ expandNeighbors hfun goal cur visited, facesIn S n.cube := by
  intro n hn
  rcases List.mem_filterMap.mp hn with ⟨move, _, hmove⟩
  dsimp only at hmove
  split at hmove
  · exact absurd hmove (by simp)
  · cases Option.some.inj hmove
    exact applyMove_facesIn hcur

lemma processNextState_decrease {hfun goal} {S : Finset Nat} {ctx ctx' : SearchCtx}
    (hin : CtxIn S ctx) (h : processNextState hfun goal ctx = .next ctx') :
    CtxIn S ctx' ∧ searchMeasure S ctx' < searchMeasure S ctx := by
  unfold processNextState at h
  split at h
  · cases h
  · rename_i cur rest hSort
    have hlen : ctx.openSet.length = rest.length + 1 := by
      have hl := sortOpen_length ctx.openSet
      rw [hSort] at hl
      simpa using hl.symm
    have hmemrest : ∀ x ∈ rest, x ∈ ctx.openSet := fun x hx =>
      mem_sortOpen.mp (hSort ▸ List.mem_cons_of_mem cur hx)
    have hcurmem : cur ∈ ctx.openSet := mem_sortOpen.mp (hSort ▸ List.mem_cons_self cur rest)
    dsimp only at h
    split at h
    · cases h
      constructor
      · exact fun n hn => hin n (hmemrest n hn)
      · show rest.length + 13 * ((keysFin S) \ ctx.visited).card <
          ctx.openSet.length + 13 * ((keysFin S) \ ctx.visited).card
        omega
    · split at h
      · cases h
      · cases h
        rename_i hv _
        constructor
        · intro n hn
          rcases List.mem_append.mp hn with hn | hn
          · exact hin n (hmemrest n hn)
          · exact expandNeighbors_facesIn (hin cur hcurmem) n hn
        · have hkey : hashCubeState cur.cube ∈ keysFin S :=
            Finset.mem_image_of_mem _ (mem_cubeFin (hin cur hcurmem))
          have hkmem : hashCubeState cur.cube ∈ keysFin S \ ctx.visited :=
            Finset.mem_sdiff.mpr ⟨hkey, hv⟩
          have hq : 1 ≤ (keysFin S \ ctx.visited).card :=
            Finset.card_pos.mpr ⟨_, hkmem⟩
          have hsd : keysFin S \ insert (hashCubeState cur.cube) ctx.visited =
              (keysFin S \ ctx.visited).erase (hashCubeState cur.cube) := by
            ext a
            simp only [Finset.mem_sdiff, Finset.mem_insert, Finset.mem_erase]
            constructor
            · rintro ⟨hks, hnot⟩
              exact ⟨fun h => hnot (Or.inl h), hks, fun h => hnot (Or.inr h)⟩
            · rintro ⟨hne, hks, hnv⟩
              exact ⟨hks, fun h => h.elim hne hnv⟩
          have hcard : (keysFin S \ insert (hashCubeState cur.cube) ctx.visited).card =
              (keysFin S \ ctx.visited).card - 1 := by
            rw [hsd]
            exact Finset.card_erase_of_mem hkmem
          have hexp := expandNeighbors_length hfun goal cur
            (insert (hashCubeState cur.cube) ctx.visited)
          show (rest ++ expandNeighbors hfun goal cur
              (insert (hashCubeState cur.cube) ctx.visited)).length +
              13 * ((keysFin S) \ insert (hashCubeState cur.cube) ctx.visited).card <
            ctx.openSet.length + 13 * ((keysFin S) \ ctx.visited).card
          rw [List.length_append, hcard]
          omega

lemma runSearch_succ (hfun : CubeState → CubeState → Nat) (goal : CubeState)
    (fuel : Nat) (ctx : SearchCtx) :
    runSearch hfun goal (fuel + 1) ctx =
      match processNextState hfun goal ctx with
      | .done r => some r
      | .next ctx' => runSearch hfun goal fuel ctx' := rfl

lemma runSearch_terminates {hfun goal} {S : Finset Nat} :
    ∀ N ctx, CtxIn S ctx → searchMeasure S ctx ≤ N →
      ∃ r, runSearch hfun goal (N + 1) ctx = some r := by
  intro N
  induction N with
  | zero =>
    intro ctx hin hm
    cases hstep : processNextState hfun goal ctx with
    | done r => exact ⟨r, by rw [runSearch_succ, hstep]⟩
    | next ctx' =>
      have := (processNextState_decrease hin hstep).2
      omega
  | succ N ih =>
    intro ctx hin hm
    cases hstep : processNextState hfun goal ctx with
    | done r => exact ⟨r, by rw [runSearch_succ, hstep]⟩
    | next ctx' =>
      obtain ⟨hin', hlt⟩ := processNextState_decrease hin hstep
      obtain ⟨r, hr⟩ := ih ctx' hin' (by omega)
      exact ⟨r, by rw [runSearch_succ, hstep]; exact hr⟩

/-- `solveCube` always resolves: for every input there is a finite
number of steps after which the promise has resolved with a result. -/
lemma solveCubeModel_terminates (hfun : CubeState → CubeState → Nat)
    (scrambled goal : CubeState) :
    ∃ fuel r, solveCubeModel fuel hfun scrambled goal = some r := by
  have hin : CtxIn ((allFacelets scrambled).toFinset)
      ⟨[initialState hfun scrambled goal], ∅⟩ := by
    intro n hn
    rcases List.mem_singleton.mp hn with rfl
    intro v hv
    exact List.mem_toFinset.mpr hv
  obtain ⟨r, hr⟩ := runSearch_terminates
    (searchMeasure ((allFacelets scrambled).toFinset) ⟨[initialState hfun scrambled goal], ∅⟩)
    ⟨[initialState hfun scrambled goal], ∅⟩ hin le_rfl
  exact ⟨_, r, hr⟩

/-- Empty frontier: the step resolves with the explicit empty result. -/
lemma processNextState_empty (hfun : CubeState → CubeState → Nat) (goal : CubeState)
    (visited : Finset String) :
    processNextState hfun goal ⟨[], visited⟩ = .done ⟨[], visited.card, 0⟩ := rfl

/-! ### Heap model of move application (claim C4 machinery)

Claim C4 is about mutation and aliasing of the JS array storage, which
the pure state model cannot express. This section re-embeds `applyMove`
(lines 147-380) against an explicit heap: addresses are allocated
sequentially, `h : Heap` maps an address to the array stored there, and
a `CubeRef` holds the six addresses of a cube's face arrays. The
source's `newCube` construction (lines 148-150,
`cube.faces.map((face) => [...face])`) allocates six fresh arrays
copying the input's faces; every subsequent assignment in the switch
writes through `newCube.faces[..]`, i.e. to the fresh addresses only,
which is exactly what the per-move cases below transliterate. -/

/-- The JS array heap: what array lives at each address. -/
def Heap : Type := Nat → List Nat

/-- The addresses of the six face arrays of one cube value. -/
structure CubeRef where
  i0 : Nat
  i1 : Nat
  i2 : Nat
  i3 : Nat
  i4 : Nat
  i5 : Nat

/-- `CubeRef.idsList` collects the six face-array addresses. -/
def CubeRef.idsList (c : CubeRef) : List Nat :=
  [c.i0, c.i1, c.i2, c.i3, c.i4, c.i5]

/-- Replace the whole array stored at `a`. -/
def heapWrite (h : Heap) (a : Nat) (face : List Nat) : Heap :=
  fun b => if b = a then face else h b

/-- `newCube.faces[a][i] = v` : element write through an address. -/
def heapWriteAt (h : Heap) (a i v : Nat) : Heap :=
  heapWrite h a ((h a).set i v)

/-- `newCube.faces[a][i]` : element read through an address. -/
def heapRead (h : Heap) (a i : Nat) : Nat :=
  (h a).getD i 0

/-- In-place `applyPermutation` on an array value (lines 139-145):
`temp` is the captured copy `face`, each slot `i` receives
`temp[perm[i]]`. -/
def applyPermutationList (face : List Nat) (perm : List Nat) : List Nat :=
  (List.range perm.length).foldl (fun f i => f.set i (face.getD (perm.getD i 0) 0)) face

/-- The six fresh arrays of `cube.faces.map((face) => [...face])`: the
next six addresses receive copies of the input's face arrays. -/
def copyCube (h : Heap) (next : Nat) (cube : CubeRef) : Heap :=
  let h1 := heapWrite h next (h cube.i0)
  let h2 := heapWrite h1 (next + 1) (h cube.i1)
  let h3 := heapWrite h2 (next + 2) (h cube.i2)
  let h4 := heapWrite h3 (next + 3) (h cube.i3)
  let h5 := heapWrite h4 (next + 4) (h cube.i4)
  heapWrite h5 (next + 5) (h cube.i5)

/-- Heap-level `applyMove`: allocate the copy, then perform the
source's assignment sequence of the matched case, each write going
through the fresh `newCube` addresses; returns the heap, the bumped
allocator and the new cube's address record. -/
def applyMoveHeap (h : Heap) (next : Nat) (cube : CubeRef) (move : String) :
    Heap × Nat × CubeRef :=
  let newCube : CubeRef := ⟨next, next + 1, next + 2, next + 3, next + 4, next + 5⟩
  let h := copyCube h next cube
  match move with
  | "U" =>
    let h := heapWrite h newCube.i0 (applyPermutationList (h newCube.i0) facePermutation)
    let temp := (heapRead h newCube.i1 0, heapRead h newCube.i1 1, heapRead h newCube.i1 2)
    let h := heapWriteAt h newCube.i1 0 (heapRead h newCube.i2 0)
    let h := heapWriteAt h newCube.i1 1 (heapRead h newCube.i2 1)
    let h := heapWriteAt h newCube.i1 2 (heapRead h newCube.i2 2)
    let h := heapWriteAt h newCube.i2 0 (heapRead h newCube.i3 0)
    let h := heapWriteAt h newCube.i2 1 (heapRead h newCube.i3 1)
    let h := heapWriteAt h newCube.i2 2 (heapRead h newCube.i3 2)
    let h := heapWriteAt h newCube.i3 0 (heapRead h newCube.i4 0)
    let h := heapWriteAt h newCube.i3 1 (heapRead h newCube.i4 1)
    let h := heapWriteAt h newCube.i3 2 (heapRead h newCube.i4 2)
    let h := heapWriteAt h newCube.i4 0 (temp.1)
    let h := heapWriteAt h newCube.i4 1 (temp.2.1)
    let h := heapWriteAt h newCube.i4 2 (temp.2.2)
    (h, next + 6, newCube)
  | "U'" =>
    let h := heapWrite h newCube.i0 (applyPermutationList (h newCube.i0) facePermutationPrime)
    let temp := (heapRead h newCube.i1 0, heapRead h newCube.i1 1, heapRead h newCube.i1 2)
    let h := heapWriteAt h newCube.i1 0 (heapRead h newCube.i4 0)
    let h := heapWriteAt h newCube.i1 1 (heapRead h newCube.i4 1)
    let h := heapWriteAt h newCube.i1 2 (heapRead h newCube.i4 2)
    let h := heapWriteAt h newCube.i4 0 (heapRead h newCube.i3 0)
    let h := heapWriteAt h newCube.i4 1 (heapRead h newCube.i3 1)
    let h := heapWriteAt h newCube.i4 2 (heapRead h newCube.i3 2)
    let h := heapWriteAt h newCube.i3 0 (heapRead h newCube.i2 0)
    let h := heapWriteAt h newCube.i3 1 (heapRead h newCube.i2 1)
    let h := heapWriteAt h newCube.i3 2 (heapRead h newCube.i2 2)
    let h := heapWriteAt h newCube.i2 0 (temp.1)
    let h := heapWriteAt h newCube.i2 1 (temp.2.1)
    let h := heapWriteAt h newCube.i2 2 (temp.2.2)
    (h, next + 6, newCube)
  | "U2" =>
    let h := heapWrite h newCube.i0 (applyPermutationList (h newCube.i0) facePermutation2)
    let temp := (heapRead h newCube.i1 0, heapRead h newCube.i1 1, heapRead h newCube.i1 2)
    let h := heapWriteAt h newCube.i1 0 (heapRead h newCube.i3 0)
    let h := heapWriteAt h newCube.i1 1 (heapRead h newCube.i3 1)
    let h := heapWriteAt h newCube.i1 2 (heapRead h newCube.i3 2)
    let h := heapWriteAt h newCube.i3 0 (temp.1)
    let h := heapWriteAt h newCube.i3 1 (temp.2.1)
    let h := heapWriteAt h newCube.i3 2 (temp.2.2)
    let temp2 := (heapRead h newCube.i2 0, heapRead h newCube.i2 1, heapRead h newCube.i2 2)
    let h := heapWriteAt h newCube.i2 0 (heapRead h newCube.i4 0)
    let h := heapWriteAt h newCube.i2 1 (heapRead h newCube.i4 1)
    let h := heapWriteAt h newCube.i2 2 (heapRead h newCube.i4 2)
    let h := heapWriteAt h newCube.i4 0 (temp2.1)
    let h := heapWriteAt h newCube.i4 1 (temp2.2.1)
    let h := heapWriteAt h newCube.i4 2 (temp2.2.2)
    (h, next + 6, newCube)
  | "D" =>
    let h := heapWrite h newCube.i5 (applyPermutationList (h newCube.i5) facePermutation)
    let temp := (heapRead h newCube.i1 6, heapRead h newCube.i1 7, heapRead h newCube.i1 8)
    let h := heapWriteAt h newCube.i1 6 (heapRead h newCube.i4 6)
    let h := heapWriteAt h newCube.i1 7 (heapRead h newCube.i4 7)
    let h := heapWriteAt h newCube.i1 8 (heapRead h newCube.i4 8)
    let h := heapWriteAt h newCube.i4 6 (heapRead h newCube.i3 6)
    let h := heapWriteAt h newCube.i4 7 (heapRead h newCube.i3 7)
    let h := heapWriteAt h newCube.i4 8 (heapRead h newCube.i3 8)
    let h := heapWriteAt h newCube.i3 6 (heapRead h newCube.i2 6)
    let h := heapWriteAt h newCube.i3 7 (heapRead h newCube.i2 7)
    let h := heapWriteAt h newCube.i3 8 (heapRead h newCube.i2 8)
    let h := heapWriteAt h newCube.i2 6 (temp.1)
    let h := heapWriteAt h newCube.i2 7 (temp.2.1)
    let h := heapWriteAt h newCube.i2 8 (temp.2.2)
    (h, next + 6, newCube)
  | "D'" =>
    let h := heapWrite h newCube.i5 (applyPermutationList (h newCube.i5) facePermutationPrime)
    let temp := (heapRead h newCube.i1 6, heapRead h newCube.i1 7, heapRead h newCube.i1 8)
    let h := heapWriteAt h newCube.i1 6 (heapRead h newCube.i2 6)
    let h := heapWriteAt h newCube.i1 7 (heapRead h newCube.i2 7)
    let h := heapWriteAt h newCube.i1 8 (heapRead h newCube.i2 8)
    let h := heapWriteAt h newCube.i2 6 (heapRead h newCube.i3 6)
    let h := heapWriteAt h newCube.i2 7 (heapRead h newCube.i3 7)
    let h := heapWriteAt h newCube.i2 8 (heapRead h newCube.i3 8)
    let h := heapWriteAt h newCube.i3 6 (heapRead h newCube.i4 6)
    let h := heapWriteAt h newCube.i3 7 (heapRead h newCube.i4 7)
    let h := heapWriteAt h newCube.i3 8 (heapRead h newCube.i4 8)
    let h := heapWriteAt h newCube.i4 6 (temp.1)
    let h := heapWriteAt h newCube.i4 7 (temp.2.1)
    let h := heapWriteAt h newCube.i4 8 (temp.2.2)
    (h, next + 6, newCube)
  | "D2" =>
    let h := heapWrite h newCube.i5 (applyPermutationList (h newCube.i5) facePermutation2)
    let temp := (heapRead h newCube.i1 6, heapRead h newCube.i1 7, heapRead h newCube.i1 8)
    let h := heapWriteAt h newCube.i1 6 (heapRead h newCube.i3 6)
    let h := heapWriteAt h newCube.i1 7 (heapRead h newCube.i3 7)
    let h := heapWriteAt h newCube.i1 8 (heapRead h newCube.i3 8)
    let h := heapWriteAt h newCube.i3 6 (temp.1)
    let h := heapWriteAt h newCube.i3 7 (temp.2.1)
    let h := heapWriteAt h newCube.i3 8 (temp.2.2)
    let temp2 := (heapRead h newCube.i2 6, heapRead h newCube.i2 7, heapRead h newCube.i2 8)
    let h := heapWriteAt h newCube.i2 6 (heapRead h newCube.i4 6)
    let h := heapWriteAt h newCube.i2 7 (heapRead h newCube.i4 7)
    let h := heapWriteAt h newCube.i2 8 (heapRead h newCube.i4 8)
    let h := heapWriteAt h newCube.i4 6 (temp2.1)
    let h := heapWriteAt h newCube.i4 7 (temp2.2.1)
    let h := heapWriteAt h newCube.i4 8 (temp2.2.2)
    (h, next + 6, newCube)
  | "R" =>
    let h := heapWrite h newCube.i3 (applyPermutationList (h newCube.i3) facePermutation)
    let temp := (heapRead h newCube.i0 2, heapRead h newCube.i0 5, heapRead h newCube.i0 8)
    let h := heapWriteAt h newCube.i0 2 (heapRead h newCube.i2 2)
    let h := heapWriteAt h newCube.i0 5 (heapRead h newCube.i2 5)
    let h := heapWriteAt h newCube.i0 8 (heapRead h newCube.i2 8)
    let h := heapWriteAt h newCube.i2 2 (heapRead h newCube.i5 2)
    let h := heapWriteAt h newCube.i2 5 (heapRead h newCube.i5 5)
    let h := heapWriteAt h newCube.i2 8 (heapRead h newCube.i5 8)
    let h := heapWriteAt h newCube.i5 2 (heapRead h newCube.i4 6)
    let h := heapWriteAt h newCube.i5 5 (heapRead h newCube.i4 3)
    let h := heapWriteAt h newCube.i5 8 (heapRead h newCube.i4 0)
    let h := heapWriteAt h newCube.i4 6 (temp.1)
    let h := heapWriteAt h newCube.i4 3 (temp.2.1)
    let h := heapWriteAt h newCube.i4 0 (temp.2.2)
    (h, next + 6, newCube)
  | "R'" =>
    let h := heapWrite h newCube.i3 (applyPermutationList (h newCube.i3) facePermutationPrime)
    let temp := (heapRead h newCube.i0 2, heapRead h newCube.i0 5, heapRead h newCube.i0 8)
    let h := heapWriteAt h newCube.i0 2 (heapRead h newCube.i4 6)
    let h := heapWriteAt h newCube.i0 5 (heapRead h newCube.i4 3)
    let h := heapWriteAt h newCube.i0 8 (heapRead h newCube.i4 0)
    let h := heapWriteAt h newCube.i4 6 (heapRead h newCube.i5 2)
    let h := heapWriteAt h newCube.i4 3 (heapRead h newCube.i5 5)
    let h := heapWriteAt h newCube.i4 0 (heapRead h newCube.i5 8)
    let h := heapWriteAt h newCube.i5 2 (heapRead h newCube.i2 2)
    let h := heapWriteAt h newCube.i5 5 (heapRead h newCube.i2 5)
    let h := heapWriteAt h newCube.i5 8 (heapRead h newCube.i2 8)
    let h := heapWriteAt h newCube.i2 2 (temp.1)
    let h := heapWriteAt h newCube.i2 5 (temp.2.1)
    let h := heapWriteAt h newCube.i2 8 (temp.2.2)
    (h, next + 6, newCube)
  | "R2" =>
    let h := heapWrite h newCube.i3 (applyPermutationList (h newCube.i3) facePermutation2)
    let temp := (heapRead h newCube.i0 2, heapRead h newCube.i0 5, heapRead h newCube.i0 8)
    let h := heapWriteAt h newCube.i0 2 (heapRead h newCube.i5 2)
    let h := heapWriteAt h newCube.i0 5 (heapRead h newCube.i5 5)
    let h := heapWriteAt h newCube.i0 8 (heapRead h newCube.i5 8)
    let h := heapWriteAt h newCube.i5 2 (temp.1)
    let h := heapWriteAt h newCube.i5 5 (temp.2.1)
    let h := heapWriteAt h newCube.i5 8 (temp.2.2)
    let temp2 := (heapRead h newCube.i2 2, heapRead h newCube.i2 5, heapRead h newCube.i2 8)
    let h := heapWriteAt h newCube.i2 2 (heapRead h newCube.i4 6)
    let h := heapWriteAt h newCube.i2 5 (heapRead h newCube.i4 3)
    let h := heapWriteAt h newCube.i2 8 (heapRead h newCube.i4 0)
    let h := heapWriteAt h newCube.i4 6 (temp2.1)
    let h := heapWriteAt h newCube.i4 3 (temp2.2.1)
    let h := heapWriteAt h newCube.i4 0 (temp2.2.2)
    (h, next + 6, newCube)
  | "L" =>
    let h := heapWrite h newCube.i1 (applyPermutationList (h newCube.i1) facePermutation)
    let temp := (heapRead h newCube.i0 0, heapRead h newCube.i0 3, heapRead h newCube.i0 6)
    let h := heapWriteAt h newCube.i0 0 (heapRead h newCube.i4 8)
    let h := heapWriteAt h newCube.i0 3 (heapRead h newCube.i4 5)
    let h := heapWriteAt h newCube.i0 6 (heapRead h newCube.i4 2)
    let h := heapWriteAt h newCube.i4 8 (heapRead h newCube.i5 0)
    let h := heapWriteAt h newCube.i4 5 (heapRead h newCube.i5 3)
    let h := heapWriteAt h newCube.i4 2 (heapRead h newCube.i5 6)
    let h := heapWriteAt h newCube.i5 0 (heapRead h newCube.i2 0)
    let h := heapWriteAt h newCube.i5 3 (heapRead h newCube.i2 3)
    let h := heapWriteAt h newCube.i5 6 (heapRead h newCube.i2 6)
    let h := heapWriteAt h newCube.i2 0 (temp.1)
    let h := heapWriteAt h newCube.i2 3 (temp.2.1)
    let h := heapWriteAt h newCube.i2 6 (temp.2.2)
    (h, next + 6, newCube)
  | "L'" =>
    let h := heapWrite h newCube.i1 (applyPermutationList (h newCube.i1) facePermutationPrime)
    let temp := (heapRead h newCube.i0 0, heapRead h newCube.i0 3, heapRead h newCube.i0 6)
    let h := heapWriteAt h newCube.i0 0 (heapRead h newCube.i2 0)
    let h := heapWriteAt h newCube.i0 3 (heapRead h newCube.i2 3)
    let h := heapWriteAt h newCube.i0 6 (heapRead h newCube.i2 6)
    let h := heapWriteAt h newCube.i2 0 (heapRead h newCube.i5 0)
    let h := heapWriteAt h newCube.i2 3 (heapRead h newCube.i5 3)
    let h := heapWriteAt h newCube.i2 6 (heapRead h newCube.i5 6)
    let h := heapWriteAt h newCube.i5 0 (heapRead h newCube.i4 8)
    let h := heapWriteAt h newCube.i5 3 (heapRead h newCube.i4 5)
    let h := heapWriteAt h newCube.i5 6 (heapRead h newCube.i4 2)
    let h := heapWriteAt h newCube.i4 8 (temp.1)
    let h := heapWriteAt h newCube.i4 5 (temp.2.1)
    let h := heapWriteAt h newCube.i4 2 (temp.2.2)
    (h, next + 6, newCube)
  | "L2" =>
    let h := heapWrite h newCube.i1 (applyPermutationList (h newCube.i1) facePermutation2)
    let temp := (heapRead h newCube.i0 0, heapRead h newCube.i0 3, heapRead h newCube.i0 6)
    let h := heapWriteAt h newCube.i0 0 (heapRead h newCube.i5 0)
    let h := heapWriteAt h newCube.i0 3 (heapRead h newCube.i5 3)
    let h := heapWriteAt h newCube.i0 6 (heapRead h newCube.i5 6)
    let h := heapWriteAt h newCube.i5 0 (temp.1)
    let h := heapWriteAt h newCube.i5 3 (temp.2.1)
    let h := heapWriteAt h newCube.i5 6 (temp.2.2)
    let temp2 := (heapRead h newCube.i2 0, heapRead h newCube.i2 3, heapRead h newCube.i2 6)
    let h := heapWriteAt h newCube.i2 0 (heapRead h newCube.i4 8)
    let h := heapWriteAt h newCube.i2 3 (heapRead h newCube.i4 5)
    let h := heapWriteAt h newCube.i2 6 (heapRead h newCube.i4 2)
    let h := heapWriteAt h newCube.i4 8 (temp2.1)
    let h := heapWriteAt h newCube.i4 5 (temp2.2.1)
    let h := heapWriteAt h newCube.i4 2 (temp2.2.2)
    (h, next + 6, newCube)
  | _ => (h, next + 6, newCube)

/-- Reading a cube value back through its addresses. -/
def readCube (h : Heap) (c : CubeRef) : CubeState :=
  ⟨⟨heapRead h c.i0 0, heapRead h c.i0 1, heapRead h c.i0 2, heapRead h c.i0 3,
    heapRead h c.i0 4, heapRead h c.i0 5, heapRead h c.i0 6, heapRead h c.i0 7,
    heapRead h c.i0 8⟩,
   ⟨heapRead h c.i1 0, heapRead h c.i1 1, heapRead h c.i1 2, heapRead h c.i1 3,
    heapRead h c.i1 4, heapRead h c.i1 5, heapRead h c.i1 6, heapRead h c.i1 7,
    heapRead h c.i1 8⟩,
   ⟨heapRead h c.i2 0, heapRead h c.i2 1, heapRead h c.i2 2, heapRead h c.i2 3,
    heapRead h c.i2 4, heapRead h c.i2 5, heapRead h c.i2 6, heapRead h c.i2 7,
    heapRead h c.i2 8⟩,
   ⟨heapRead h c.i3 0, heapRead h c.i3 1, heapRead h c.i3 2, heapRead h c.i3 3,
    heapRead h c.i3 4, heapRead h c.i3 5, heapRead h c.i3 6, heapRead h c.i3 7,
    heapRead h c.i3 8⟩,
   ⟨heapRead h c.i4 0, heapRead h c.i4 1, heapRead h c.i4 2, heapRead h c.i4 3,
    heapRead h c.i4 4, heapRead h c.i4 5, heapRead h c.i4 6, heapRead h c.i4 7,
    heapRead h c.i4 8⟩,
   ⟨heapRead h c.i5 0, heapRead h c.i5 1, heapRead h c.i5 2, heapRead h c.i5 3,
    heapRead h c.i5 4, heapRead h c.i5 5, heapRead h c.i5 6, heapRead h c.i5 7,
    heapRead h c.i5 8⟩⟩

lemma heapWrite_ne {h : Heap} {b : Nat} {face : List Nat} {a : Nat} (hab : a ≠ b) :
    heapWrite h b face a = h a :=
  if_neg hab

/-- Frame property: a move writes only to the six freshly allocated
addresses, so the heap below the allocation watermark is untouched. -/
lemma applyMoveHeap_frame (h : Heap) (next : Nat) (cube : CubeRef) (move : String) :
    ∀ a, a < next → (applyMoveHeap h next cube move).1 a = h a := by
  intro a ha
  have hne0 : a ≠ next := by omega
  have hne1 : a ≠ next + 1 := by omega
  have hne2 : a ≠ next + 2 := by omega
  have hne3 : a ≠ next + 3 := by omega
  have hne4 : a ≠ next + 4 := by omega
  have hne5 : a ≠ next + 5 := by omega
  unfold applyMoveHeap
  split <;>
    simp only [copyCube, heapWriteAt, heapWrite_ne hne0, heapWrite_ne hne1,
      heapWrite_ne hne2, heapWrite_ne hne3, heapWrite_ne hne4, heapWrite_ne hne5]

/-- The returned reference is exactly the six fresh addresses, and the
allocator advances past them. -/
lemma applyMoveHeap_ref (h : Heap) (next : Nat) (cube : CubeRef) (move : String) :
    (applyMoveHeap h next cube move).2.2 =
      ⟨next, next + 1, next + 2, next + 3, next + 4, next + 5⟩ ∧
    (applyMoveHeap h next cube move).2.1 = next + 6 := by
  unfold applyMoveHeap
  split <;> exact ⟨rfl, rfl⟩

/-! ### The heuristic provider's oracle path (claim C8 machinery)

`getAIEnhancedHeuristic` (lines 77-126) consults an external generative
oracle. The oracle is modelled by two parameters: whether one is
configured (`genAI`, line 24, non-null iff the API key is set) and the
outcome of one request (`oracleResponse`: `none` when the request
throws — network, timeout, auth —, `some text` for a reply). The
heuristic cache (line 22) is an association list with newest-first
lookup, matching `Map.has/get/set` for the fresh keys the code inserts.
Outputs are the estimate, the updated cache, and whether an oracle
request was issued (the `try` block of lines 88-120 was entered). -/

/-- Decimal value of a digit string, as `Number.parseInt` reads one. -/
def digitsToNat (ds : List Char) : Nat :=
  ds.foldl (fun n c => 10 * n + (c.toNat - 48)) 0

/-- `response.match(/\d+/)?.[0] || "0"` then `Number.parseInt`: the
first maximal digit run of the reply, as a number, `0` when the reply
holds no digit (`parseInt("0")`). -/
def firstIntOf (s : String) : Nat :=
  digitsToNat ((s.data.dropWhile (fun c => !c.isDigit)).takeWhile (fun c => c.isDigit))

/-- Source `getAIEnhancedHeuristic` (lines 77-126): no oracle → local
estimate; cached key → cached value without a request; failed request →
local estimate, no cache write; parsed estimate accepted only strictly
between 0 and 50, cached and returned; otherwise local estimate, no
cache write. -/
def getAIEnhancedHeuristic (genAI : Bool) (oracleResponse : Option String)
    (cache : List (String × Nat)) (current goal : CubeState) :
    Nat × List (String × Nat) × Bool :=
  if !genAI then (getDisplacedPiecesHeuristic current goal, cache, false)
  else
    let stateKey := hashCubeState current
    match cache.lookup stateKey with
    | some v => (v, cache, false)
    | none =>
      match oracleResponse with
      | none => (getDisplacedPiecesHeuristic current goal, cache, true)
      | some response =>
        let aiEstimate := firstIntOf response
        if aiEstimate > 0 ∧ aiEstimate < 50 then
          (aiEstimate, (stateKey, aiEstimate) :: cache, true)
        else (getDisplacedPiecesHeuristic current goal, cache, true)

/-- Source `getSmartHeuristic` (lines 128-137): increment the call
counter; consult the oracle path only when the incremented counter is a
multiple of 15 and an oracle is configured, otherwise return the local
estimate. Returns the estimate, the cache and the new counter. -/
def getSmartHeuristic (heuristicCallCount : Nat) (genAI : Bool)
    (oracleResponse : Option String) (cache : List (String × Nat))
    (current goal : CubeState) : Nat × List (String × Nat) × Nat :=
  let count := heuristicCallCount + 1
  if count % 15 = 0 ∧ genAI = true then
    let r := getAIEnhancedHeuristic genAI oracleResponse cache current goal
    (r.1, r.2.1, count)
  else (getDisplacedPiecesHeuristic current goal, cache, count)

/-- Folding any sequence of moves preserves every facelet-value count. -/
lemma foldl_applyMove_count (ms : List String) :
    ∀ (s : CubeState) (v : Nat),
      (allFacelets (ms.foldl applyMove s)).count v = (allFacelets s).count v := by
  induction ms with
  | nil => intro s v; rfl
  | cons m ms ih =>
    intro s v
    rw [List.foldl_cons, ih, applyMove_count]

/-- The solved cube has 9 facelets of each of the 6 values. -/
lemma solvedCube_count : ∀ v : Nat, v < 6 → (allFacelets createSolvedCube).count v = 9 := by
  decide

/-! ### The claims -/

/-- Claim C1: for every move in the 12-move vocabulary and every cube
state (six faces of nine facelets each), applying the move and then its
inverse (U with U-prime, D with D-prime, R with R-prime, L with L-prime,
each half-turn its own inverse) reproduces the state facelet for
facelet. -/
theorem claim_C1 (s : CubeState) (m : String) (hm : m ∈ validMoves) :
    applyMove (applyMove s m) (inverse m) = s := by
  obtain ⟨⟨a0,a1,a2,a3,a4,a5,a6,a7,a8⟩,⟨b0,b1,b2,b3,b4,b5,b6,b7,b8⟩,⟨c0,c1,c2,c3,c4,c5,c6,c7,c8⟩,⟨d0,d1,d2,d3,d4,d5,d6,d7,d8⟩,⟨e0,e1,e2,e3,e4,e5,e6,e7,e8⟩,⟨g0,g1,g2,g3,g4,g5,g6,g7,g8⟩⟩ := s
  fin_cases hm <;> rfl

theorem claim_C1_witness :
    ("R" ∈ validMoves) ∧
    applyMove (applyMove createSolvedCube "R") (inverse "R") = createSolvedCube :=
  ⟨by decide, claim_C1 createSolvedCube "R" (by decide)⟩

/-- Claim C3: for each face with its counter-clockwise and half-turn
names, on every state: the half-turn equals the quarter-turn applied
twice; four quarter-turns are the identity; two half-turns are the
identity; and three quarter-turns equal one counter-clockwise turn. -/
theorem claim_C3 (s : CubeState) (q : String × String × String)
    (hq : q ∈ [("U", "U'", "U2"), ("D", "D'", "D2"), ("R", "R'", "R2"), ("L", "L'", "L2")]) :
    applyMove s q.2.2 = applyMove (applyMove s q.1) q.1 ∧
    applyMove (applyMove (applyMove (applyMove s q.1) q.1) q.1) q.1 = s ∧
    applyMove (applyMove s q.2.2) q.2.2 = s ∧
    applyMove (applyMove (applyMove s q.1) q.1) q.1 = applyMove s q.2.1 := by
  obtain ⟨⟨a0,a1,a2,a3,a4,a5,a6,a7,a8⟩,⟨b0,b1,b2,b3,b4,b5,b6,b7,b8⟩,⟨c0,c1,c2,c3,c4,c5,c6,c7,c8⟩,⟨d0,d1,d2,d3,d4,d5,d6,d7,d8⟩,⟨e0,e1,e2,e3,e4,e5,e6,e7,e8⟩,⟨g0,g1,g2,g3,g4,g5,g6,g7,g8⟩⟩ := s
  fin_cases hq <;> exact ⟨rfl, rfl, rfl, rfl⟩

theorem claim_C3_witness :
    applyMove createSolvedCube "U2" = applyMove (applyMove createSolvedCube "U") "U" ∧
    applyMove (applyMove (applyMove (applyMove createSolvedCube "U") "U") "U") "U" =
      createSolvedCube ∧
    applyMove (applyMove createSolvedCube "U2") "U2" = createSolvedCube ∧
    applyMove (applyMove (applyMove createSolvedCube "U") "U") "U" =
      applyMove createSolvedCube "U'" :=
  claim_C3 createSolvedCube ("U", "U'", "U2") (by decide)

/-- Claim C2: whenever `solveCube` resolves with a non-empty move list,
folding `applyMove` over that list from the input state reaches a state
satisfying `isGoal` with the goal; in particular for inputs produced by
`scrambleCube`. -/
theorem claim_C2 :
    (∀ fuel hfun scrambled goal r,
      solveCubeModel fuel hfun scrambled goal = some r → r.moves ≠ [] →
      isGoal (r.moves.foldl applyMove scrambled) goal = true) ∧
    (∀ fuel hfun n rand goal r,
      solveCubeModel fuel hfun (scrambleCube n rand).1 goal = some r → r.moves ≠ [] →
      isGoal (r.moves.foldl applyMove (scrambleCube n rand).1) goal = true) := by
  constructor
  · intro fuel hfun scrambled goal r h hne
    exact solveCubeModel_sound h hne
  · intro fuel hfun n rand goal r h hne
    exact solveCubeModel_sound h hne

theorem claim_C2_witness :
    isGoal ((["R'"]).foldl applyMove (applyMove createSolvedCube "R")) createSolvedCube
      = true ∧
    isGoal ((["R'"]).foldl applyMove (scrambleCube 1 (fun _ => 6)).1) createSolvedCube
      = true :=
  ⟨claim_C2.1 2 getDisplacedPiecesHeuristic (applyMove createSolvedCube "R")
      createSolvedCube ⟨["R'"], 2, 0⟩ (by decide) (by decide),
   claim_C2.2 2 getDisplacedPiecesHeuristic 1 (fun _ => 6) createSolvedCube
      ⟨["R'"], 2, 0⟩ (by decide) (by decide)⟩

/-- Claim C4: in the heap model, applying a move leaves every address
below the allocation watermark — in particular the input cube's six
face arrays, hence its 54 facelets — unchanged, and the returned cube's
face arrays are six fresh addresses sharing no storage with the input's. -/
theorem claim_C4 (h : Heap) (next : Nat) (cube : CubeRef) (move : String)
    (h0 : cube.i0 < next) (h1 : cube.i1 < next) (h2 : cube.i2 < next)
    (h3 : cube.i3 < next) (h4 : cube.i4 < next) (h5 : cube.i5 < next) :
    (∀ a, a < next → (applyMoveHeap h next cube move).1 a = h a) ∧
    readCube (applyMoveHeap h next cube move).1 cube = readCube h cube ∧
    (∀ b ∈ (applyMoveHeap h next cube move).2.2.idsList, b ∉ cube.idsList) := by
  refine ⟨applyMoveHeap_frame h next cube move, ?_, ?_⟩
  · unfold readCube heapRead
    rw [applyMoveHeap_frame h next cube move cube.i0 h0,
        applyMoveHeap_frame h next cube move cube.i1 h1,
        applyMoveHeap_frame h next cube move cube.i2 h2,
        applyMoveHeap_frame h next cube move cube.i3 h3,
        applyMoveHeap_frame h next cube move cube.i4 h4,
        applyMoveHeap_frame h next cube move cube.i5 h5]
  · intro b hb
    rw [(applyMoveHeap_ref h next cube move).1] at hb
    simp only [CubeRef.idsList, List.mem_cons, List.not_mem_nil, or_false] at hb ⊢
    rcases hb with rfl | rfl | rfl | rfl | rfl | rfl <;> push_neg <;> omega

theorem claim_C4_witness :
    readCube (applyMoveHeap (fun a => List.replicate 9 a) 6 ⟨0, 1, 2, 3, 4, 5⟩ "U").1
        ⟨0, 1, 2, 3, 4, 5⟩ =
      readCube (fun a => List.replicate 9 a) ⟨0, 1, 2, 3, 4, 5⟩ :=
  (claim_C4 (fun a => List.replicate 9 a) 6 ⟨0, 1, 2, 3, 4, 5⟩ "U"
    (by decide) (by decide) (by decide) (by decide) (by decide) (by decide)).2.1

/-- Claim C5: every legal move preserves the number of occurrences of
every facelet value over the 54 positions of an arbitrary state, and
consequently every state reached from the solved state by legal moves
has exactly 9 occurrences of each of the 6 values. -/
theorem claim_C5 :
    (∀ (s : CubeState) (m : String), m ∈ validMoves → ∀ v : Nat,
      (allFacelets (applyMove s m)).count v = (allFacelets s).count v) ∧
    (∀ ms : List String, (∀ m ∈ ms, m ∈ validMoves) → ∀ v : Nat, v < 6 →
      (allFacelets (ms.foldl applyMove createSolvedCube)).count v = 9) := by
  constructor
  · intro s m _ v
    exact applyMove_count s m v
  · intro ms _ v hv
    rw [foldl_applyMove_count]
    exact solvedCube_count v hv

theorem claim_C5_witness :
    (allFacelets (applyMove createSolvedCube "U")).count 0 =
      (allFacelets createSolvedCube).count 0 ∧
    (allFacelets ((["R", "U"]).foldl applyMove createSolvedCube)).count 3 = 9 :=
  ⟨claim_C5.1 createSolvedCube "U" (by decide) 0,
   claim_C5.2 ["R", "U"] (by decide) 3 (by decide)⟩

/-- Claim C6: within one search, visited keys are only inserted and
never removed; a popped node whose key is already visited is discarded
with nothing expanded and the visited set unchanged; any step inserts
at most one fresh key; the trace of expanded keys of a run has no
duplicate (each distinct state is expanded at most once); and a
resolved search's `statesExplored` is the starting visited size plus
the number of expansions, the size of the final visited set. -/
theorem claim_C6 :
    (∀ (hfun : CubeState → CubeState → Nat) (goal : CubeState) (ctx ctx' : SearchCtx),
      processNextState hfun goal ctx = .next ctx' → ctx.visited ⊆ ctx'.visited) ∧
    (∀ (hfun : CubeState → CubeState → Nat) (goal : CubeState) (ctx : SearchCtx)
      (cur : SNode) (rest : List SNode),
      sortOpen ctx.openSet = cur :: rest → hashCubeState cur.cube ∈ ctx.visited →
      processNextState hfun goal ctx = .next ⟨rest, ctx.visited⟩) ∧
    (∀ (hfun : CubeState → CubeState → Nat) (goal : CubeState) (ctx ctx' : SearchCtx),
      processNextState hfun goal ctx = .next ctx' →
      ctx'.visited = ctx.visited ∨
        ∃ k, k ∉ ctx.visited ∧ ctx'.visited = insert k ctx.visited) ∧
    (∀ (hfun : CubeState → CubeState → Nat) (goal : CubeState) (fuel : Nat)
      (ctx : SearchCtx), (runKeys hfun goal fuel ctx).Nodup) ∧
    (∀ (hfun : CubeState → CubeState → Nat) (goal : CubeState) (fuel : Nat)
      (ctx : SearchCtx) (r : SolveResult), runSearch hfun goal fuel ctx = some r →
      r.statesExplored = ctx.visited.card + (runKeys hfun goal fuel ctx).length) := by
  refine ⟨?_, ?_, ?_, ?_, ?_⟩
  · intro hfun goal ctx ctx' h
    exact processNextState_mono h
  · intro hfun goal ctx cur rest hSort hv
    exact processNextState_prune hSort hv
  · intro hfun goal ctx ctx' h
    exact (processNextState_insert_char).1 ctx' h
  · intro hfun goal fuel ctx
    exact (runKeys_fresh_nodup fuel ctx).2
  · intro hfun goal fuel ctx r h
    exact runSearch_statesExplored fuel ctx r h

theorem claim_C6_witness :
    processNextState getDisplacedPiecesHeuristic createSolvedCube
        ⟨[⟨createSolvedCube, 0, 0, 0, []⟩], {hashCubeState createSolvedCube}⟩ =
      .next ⟨[], {hashCubeState createSolvedCube}⟩ ∧
    (SolveResult.mk [] 0 0).statesExplored =
      (∅ : Finset String).card +
        (runKeys getDisplacedPiecesHeuristic createSolvedCube 1 ⟨[], ∅⟩).length :=
  ⟨claim_C6.2.1 getDisplacedPiecesHeuristic createSolvedCube
      ⟨[⟨createSolvedCube, 0, 0, 0, []⟩], {hashCubeState createSolvedCube}⟩
      ⟨createSolvedCube, 0, 0, 0, []⟩ [] (by decide) (by decide),
   claim_C6.2.2.2.2 getDisplacedPiecesHeuristic createSolvedCube 1 ⟨[], ∅⟩
      ⟨[], 0, 0⟩ (by decide)⟩

/-- Claim C7: the search always resolves with a result (no throw, no
rejection): for every input some finite number of steps produces a
result; and a step taken with an empty frontier resolves with the
explicit empty move list together with the visited-state count (and the
elapsed-time field), rather than raising an error. -/
theorem claim_C7 :
    (∀ (hfun : CubeState → CubeState → Nat) (scrambled goal : CubeState),
      ∃ fuel r, solveCubeModel fuel hfun scrambled goal = some r) ∧
    (∀ (hfun : CubeState → CubeState → Nat) (goal : CubeState) (visited : Finset String),
      processNextState hfun goal ⟨[], visited⟩ = .done ⟨[], visited.card, 0⟩) :=
  ⟨solveCubeModel_terminates, processNextState_empty⟩

/-- Claim C8: the oracle path degrades without aborting: with no oracle
configured, or a failed request, or a first parsed integer outside the
open interval (0, 50), the result is the displaced-pieces estimate with
no cache write; an in-range estimate is cached under the state's key
and returned; a cached key is answered from the cache without a new
request; and the smart heuristic consults the oracle path exactly on
every 15th call when an oracle is configured, otherwise returning the
local estimate. -/
theorem claim_C8 (genAI : Bool) (resp : Option String) (cache : List (String × Nat))
    (current goal : CubeState) (count : Nat) :
    (genAI = false →
      getAIEnhancedHeuristic genAI resp cache current goal =
        (getDisplacedPiecesHeuristic current goal, cache, false)) ∧
    (∀ v, genAI = true → (cache.lookup (hashCubeState current)) = some v →
      getAIEnhancedHeuristic genAI resp cache current goal = (v, cache, false)) ∧
    (genAI = true → (cache.lookup (hashCubeState current)) = none → resp = none →
      getAIEnhancedHeuristic genAI resp cache current goal =
        (getDisplacedPiecesHeuristic current goal, cache, true)) ∧
    (∀ str, genAI = true → (cache.lookup (hashCubeState current)) = none →
      resp = some str → ¬(firstIntOf str > 0 ∧ firstIntOf str < 50) →
      getAIEnhancedHeuristic genAI resp cache current goal =
        (getDisplacedPiecesHeuristic current goal, cache, true)) ∧
    (∀ str, genAI = true → (cache.lookup (hashCubeState current)) = none →
      resp = some str → firstIntOf str > 0 → firstIntOf str < 50 →
      getAIEnhancedHeuristic genAI resp cache current goal =
        (firstIntOf str, (hashCubeState current, firstIntOf str) :: cache, true)) ∧
    ((count + 1) % 15 = 0 → genAI = true →
      getSmartHeuristic count genAI resp cache current goal =
        ((getAIEnhancedHeuristic genAI resp cache current goal).1,
         (getAIEnhancedHeuristic genAI resp cache current goal).2.1, count + 1)) ∧
    (¬((count + 1) % 15 = 0 ∧ genAI = true) →
      getSmartHeuristic count genAI resp cache current goal =
        (getDisplacedPiecesHeuristic current goal, cache, count + 1)) := by
  refine ⟨?_, ?_, ?_, ?_, ?_, ?_, ?_⟩
  · intro hg
    subst hg
    rfl
  · intro v hg hc
    subst hg
    simp [getAIEnhancedHeuristic, hc]
  · intro hg hc hr
    subst hg
    subst hr
    simp [getAIEnhancedHeuristic, hc]
  · intro str hg hc hr hrange
    subst hg
    subst hr
    simp only [getAIEnhancedHeuristic, Bool.not_true, Bool.false_eq_true, if_false, hc]
    rw [if_neg hrange]
  · intro str hg hc hr hpos hlt
    subst hg
    subst hr
    simp only [getAIEnhancedHeuristic, Bool.not_true, Bool.false_eq_true, if_false, hc]
    rw [if_pos ⟨hpos, hlt⟩]
  · intro h15 hg
    subst hg
    unfold getSmartHeuristic
    rw [if_pos ⟨h15, rfl⟩]
  · intro hcond
    unfold getSmartHeuristic
    rw [if_neg hcond]

theorem claim_C8_witness :
    getAIEnhancedHeuristic true (some "Estimate: 12 moves") [] createSolvedCube
        createSolvedCube =
      (12, [(hashCubeState createSolvedCube, 12)], true) ∧
    getSmartHeuristic 14 true (some "Estimate: 12 moves") [] createSolvedCube
        createSolvedCube =
      ((getAIEnhancedHeuristic true (some "Estimate: 12 moves") [] createSolvedCube
          createSolvedCube).1,
       (getAIEnhancedHeuristic true (some "Estimate: 12 moves") [] createSolvedCube
          createSolvedCube).2.1, 15) := by
  constructor
  · have h := (claim_C8 true (some "Estimate: 12 moves") [] createSolvedCube
      createSolvedCube 14).2.2.2.2.1 "Estimate: 12 moves" rfl (by decide) rfl
      (by decide) (by decide)
    rw [h]
    decide
  · exact (claim_C8 true (some "Estimate: 12 moves") [] createSolvedCube
      createSolvedCube 14).2.2.2.2.2.1 (by decide) rfl

/-- Claim C9: the canonical key is deterministic, and on states whose
facelet values are all single-digit (in particular valid states over
values 0-5) two states have the same key exactly when they are facelet
for facelet equal. -/
theorem claim_C9 (s t : CubeState) (hs : ∀ v ∈ allFacelets s, v < 10)
    (ht : ∀ v ∈ allFacelets t, v < 10) :
    hashCubeState s = hashCubeState t ↔ s = t :=
  ⟨hashCubeState_inj s t hs ht, fun h => h ▸ rfl⟩

theorem claim_C9_witness :
    (hashCubeState createSolvedCube = hashCubeState (applyMove createSolvedCube "U") ↔
      createSolvedCube = applyMove createSolvedCube "U") :=
  claim_C9 createSolvedCube (applyMove createSolvedCube "U") (by decide) (by decide)

/-- Claim C10: a move string outside the 12-token vocabulary acts as
the identity at the `applyMove` interface: the returned state equals
the input facelet for facelet, with no partial mutation. -/
theorem claim_C10 (s : CubeState) (m : String) (hm : m ∉ validMoves) :
    applyMove s m = s :=
  applyMove_of_not_mem s m hm

theorem claim_C10_witness :
    ("F" ∉ validMoves) ∧ applyMove createSolvedCube "F" = createSolvedCube :=
  ⟨by decide, claim_C10 createSolvedCube "F" (by decide)⟩

/-- Cross-check of the two embeddings of `applyMove`: on a cube whose
54 facelets are pairwise distinct (so agreement pins down the whole
position permutation), the heap-level move computes exactly the pure
move, for each of the 12 legal moves. -/
lemma applyMoveHeap_agrees_with_applyMove : ∀ m ∈ validMoves,
    readCube (applyMoveHeap (fun a => (List.range 9).map (fun j => 9 * a + j))
        6 ⟨0, 1, 2, 3, 4, 5⟩ m).1
      (applyMoveHeap (fun a => (List.range 9).map (fun j => 9 * a + j))
        6 ⟨0, 1, 2, 3, 4, 5⟩ m).2.2 =
    applyMove (readCube (fun a => (List.range 9).map (fun j => 9 * a + j))
      ⟨0, 1, 2, 3, 4, 5⟩) m := by
  decide
